import Mathlib

/-!
Shallow embedding of the payment-processing core of the repository
(`src/payment_service`): the transaction and refund workflows of
`services/payment_service.py`, the gateway client of
`services/banking_service.py`, the in-memory cache of
`services/cache_service.py`, and the card-data codec of
`services/encryption_service.py`.

Conventions:
  - Python `Decimal` values are embedded as `Dec` (integer mantissa and a
    base-ten exponent), mirroring `Decimal.as_tuple()`.
  - Timestamps (`datetime.utcnow()`, `CURRENT_TIMESTAMP`) are abstract ticks
    (`Nat`) passed in as a `now` parameter.
  - Raised Python exceptions are values of `PError`; `raise` is `Except.error`.
  - External I/O (gateway HTTP calls) is an oracle passed in as data.
-/

/-- Fixed-point decimal: value is `m / 10 ^ e`.  Mirrors Python `Decimal`
as used by the service (pydantic enforces at most two fractional digits). -/
structure Dec where
  m : Int
  e : Nat
deriving DecidableEq, Repr

/-- `Decimal` comparison `a > b`, by cross-multiplying the scales. -/
def Dec.gtB (a b : Dec) : Bool := decide (b.m * (10 : Int) ^ a.e < a.m * (10 : Int) ^ b.e)

/-- pydantic `gt=0` on a decimal field. -/
def Dec.posB (a : Dec) : Bool := decide (0 < a.m)

/-- pydantic `decimal_places=2` / the `as_tuple().exponent < -2` validator. -/
def Dec.dp2B (a : Dec) : Bool := decide (a.e ≤ 2)

/-- `models/payment.py` `PaymentStatus`. -/
inductive PaymentStatus
  | pending | authorized | captured | failed | cancelled | expired
deriving DecidableEq, Repr

/-- `PaymentStatus(...).value` — the stored status string. -/
def PaymentStatus.value : PaymentStatus → String
  | .pending => "pending"
  | .authorized => "authorized"
  | .captured => "captured"
  | .failed => "failed"
  | .cancelled => "cancelled"
  | .expired => "expired"

/-- `models/payment.py` `RefundStatus`. -/
inductive RefundStatus
  | pending | processing | completed | failed | cancelled
deriving DecidableEq, Repr

/-- `RefundStatus(...).value`. -/
def RefundStatus.value : RefundStatus → String
  | .pending => "pending"
  | .processing => "processing"
  | .completed => "completed"
  | .failed => "failed"
  | .cancelled => "cancelled"

/-- `models/payment.py` `PaymentMethod`. -/
inductive PaymentMethod
  | credit_card | debit_card | bank_transfer | digital_wallet
deriving DecidableEq, Repr

/-- `PaymentMethod(...).value`. -/
def PaymentMethod.value : PaymentMethod → String
  | .credit_card => "credit_card"
  | .debit_card => "debit_card"
  | .bank_transfer => "bank_transfer"
  | .digital_wallet => "digital_wallet"

/-- `models/payment.py` `CardData`. Expiry fields are Python `int`. -/
structure CardData where
  card_number : String
  expiry_month : Int
  expiry_year : Int
  cvv : String
  cardholder_name : String
deriving DecidableEq, Repr

/-- `models/payment.py` `PaymentRequest` (after pydantic parsing). -/
structure PaymentRequest where
  merchant_id : String
  amount : Dec
  currency : String
  payment_method : PaymentMethod
  card_data : Option CardData
  description : Option String
  metadata : List (String × String)
deriving DecidableEq, Repr

/-- `models/payment.py` `RefundRequest`. -/
structure RefundRequest where
  amount : Option Dec
  reason : Option String
  metadata : List (String × String)
deriving DecidableEq, Repr

/-- Python exception values that the payment-service code can raise, plus the
classes declared in `utils/exceptions.py` (which the service never raises). -/
inductive PError
  /-- A plain Python `ValueError(msg)` — what the service actually raises. -/
  | valueError (msg : String)
  /-- A pydantic request-model validation failure (rejected before the
  orchestrator runs). -/
  | pydanticValidation (msg : String)
  /-- `utils.exceptions.ValidationError` (declared, never raised in `src`). -/
  | validationError (msg : String)
  /-- `utils.exceptions.PaymentProcessingError` (declared, never raised). -/
  | paymentProcessingError (msg : String) (transaction_id : Option String)
  /-- `utils.exceptions.TransactionNotFoundError` (declared, never raised). -/
  | transactionNotFoundError (transaction_id : String)
  /-- `utils.exceptions.InvalidTransactionStateError` (declared, never raised). -/
  | invalidTransactionStateError (transaction_id current required : String)
  /-- A generic `Exception(msg)` as raised by `banking_service.py` for
  transport failures ("Banking service timeout", "Banking service error: ..."). -/
  | exceptionError (msg : String)
  /-- `tenacity.RetryError` wrapping the last attempt's exception. -/
  | retryError (last : PError)
  /-- `TypeError` from subscripting `None` (e.g. a missing parent row). -/
  | typeError (msg : String)
deriving DecidableEq, Repr

/-- Discriminator: is this exception an `utils.exceptions.PaymentProcessingError`? -/
def PError.isPaymentProcessing : PError → Bool
  | .paymentProcessingError _ _ => true
  | _ => false

/-- Discriminator: is this exception an `utils.exceptions.TransactionNotFoundError`? -/
def PError.isTransactionNotFound : PError → Bool
  | .transactionNotFoundError _ => true
  | _ => false

/-- Discriminator: is this a `ValueError`? -/
def PError.isValueError : PError → Bool
  | .valueError _ => true
  | _ => false

/-- The body of the gateway's authorize response as `banking_service.py`
returns it: either the 200 JSON body verbatim, or the dict built on a 402
(`{"status": "declined", ...}` with no `authorization_id` key). Absent keys
read through `.get(...)` are `none`. -/
structure AuthResult where
  status : Option String
  authorization_id : Option String
  message : Option String
  decline_code : Option String
deriving DecidableEq, Repr

/-- The outcome of one underlying HTTP authorize attempt inside
`BankingService.authorize_payment`: either the call raises (timeout, request
error, non-200/402 status, or any other exception — all of which propagate as
an exception out of that attempt) or it returns a result dict. -/
inductive AuthAttempt
  /-- The attempt raises `e` (after `banking_service.py`'s own exception
  mapping: `httpx.TimeoutException ↦ Exception("Banking service timeout")`,
  `httpx.RequestError ↦ Exception("Banking service error: ...")`, anything
  else re-raised). -/
  | transport (e : PError)
  /-- The attempt returns normally with body `r` (HTTP 200, or the declined
  dict built for HTTP 402). -/
  | response (r : AuthResult)
deriving DecidableEq, Repr

/-- `BankingService.authorize_payment` under its
`@retry(stop=stop_after_attempt(3), ...)` decorator: up to `fuel` attempts,
retrying on any raised exception; after the budget is exhausted tenacity
raises `RetryError` (wrapping the last exception).  `g j` is the outcome of
the `j`-th HTTP attempt overall; `i` is the index of the first attempt this
invocation makes.  Returns the result together with the number of HTTP
attempts consumed. -/
def bankingAuthorize (g : Nat → AuthAttempt) (i : Nat) : Nat → Except PError AuthResult × Nat
  | 0 => (.error (.retryError (.exceptionError "no attempts")), 0)
  | fuel + 1 =>
    match g i with
    | .response r => (.ok r, 1)
    | .transport e =>
      if fuel = 0 then (.error (.retryError e), 1)
      else
        let (res, k) := bankingAuthorize g (i + 1) fuel
        (res, k + 1)

/-- `PaymentService._authorize_payment` under its own
`@retry(stop=stop_after_attempt(3), ...)` decorator: up to `fuel` calls of
`BankingService.authorize_payment`, retrying on any raised exception (in
particular on the inner `RetryError`).  Returns the result and the total
number of underlying HTTP attempts consumed. -/
def authorize_payment (g : Nat → AuthAttempt) (i : Nat) : Nat → Except PError AuthResult × Nat
  | 0 => (.error (.retryError (.exceptionError "no attempts")), 0)
  | fuel + 1 =>
    let (res, k) := bankingAuthorize g i 3
    match res with
    | .ok r => (.ok r, k)
    | .error e =>
      if fuel = 0 then (.error (.retryError e), k)
      else
        let (res2, k2) := authorize_payment g (i + k) fuel
        (res2, k + k2)

example :
    (authorize_payment (fun _ => .transport (.exceptionError "Banking service timeout")) 0 3).2
      = 9 := by decide

example :
    (authorize_payment (fun _ => .response ⟨some "declined", none, some "Payment declined", none⟩) 0 3).2
      = 1 := by decide

/-! ### Encryption collaborator (`services/encryption_service.py`)

`encrypt_card_data` serializes the five-field card dict with `json.dumps`
(default settings: `ensure_ascii=True`, separators `", "` and `": "`, keys in
insertion order), encrypts the UTF-8 bytes with a Fernet cipher, and returns
the base64 encoding of the token; `decrypt_card_data` inverts the three steps.
The Fernet cipher (and the UTF-8 codec it is fed through) is an external
library, modelled as an abstract `Cipher` value; `json.dumps`/`json.loads`
and `base64.b64encode`/`b64decode` are modelled concretely below
(`json.loads` is modelled on the grammar `json.dumps` emits for this dict). -/

/-- Lowercase hex digit, as emitted by Python's `\u%04x` escapes. -/
def hexDigitChar (n : Nat) : Char :=
  if n < 10 then Char.ofNat (48 + n) else Char.ofNat (87 + n)

/-- Value of a hex digit (`json.loads` accepts both cases). -/
def hexVal (c : Char) : Option Nat :=
  if 48 ≤ c.toNat ∧ c.toNat ≤ 57 then some (c.toNat - 48)
  else if 97 ≤ c.toNat ∧ c.toNat ≤ 102 then some (c.toNat - 87)
  else if 65 ≤ c.toNat ∧ c.toNat ≤ 70 then some (c.toNat - 55)
  else none

/-- The four hex digits of a `\uXXXX` escape. -/
def toHex4 (n : Nat) : List Char :=
  [hexDigitChar (n / 4096 % 16), hexDigitChar (n / 256 % 16),
   hexDigitChar (n / 16 % 16), hexDigitChar (n % 16)]

/-- One character as emitted inside a JSON string by `json.dumps` with
`ensure_ascii=True`: the short escapes of `ESCAPE_DCT`, printable ASCII
verbatim, `\uXXXX` for everything else, surrogate pairs for astral planes. -/
def escapeChar (c : Char) : List Char :=
  if c = '"' then ['\\', '"']
  else if c = '\\' then ['\\', '\\']
  else if c = Char.ofNat 8 then ['\\', 'b']
  else if c = Char.ofNat 12 then ['\\', 'f']
  else if c = '\n' then ['\\', 'n']
  else if c = '\r' then ['\\', 'r']
  else if c = '\t' then ['\\', 't']
  else if 32 ≤ c.toNat ∧ c.toNat ≤ 126 then [c]
  else if c.toNat < 65536 then '\\' :: 'u' :: toHex4 c.toNat
  else
    '\\' :: 'u' :: toHex4 (55296 + (c.toNat - 65536) / 1024) ++
      '\\' :: 'u' :: toHex4 (56320 + (c.toNat - 65536) % 1024)

/-- `json.dumps` escaping of a whole string (without the quotes). -/
def escapeStr (s : List Char) : List Char := s.flatMap escapeChar

/-- A JSON string literal: quotes around the escaped content. -/
def quoteStr (s : String) : List Char := '"' :: (escapeStr s.data ++ ['"'])

/-- Decimal digit character. -/
def digitChar (d : Nat) : Char := Char.ofNat (48 + d)

/-- Decimal digits of a natural number, most significant first, with
structural fuel (`fuel > n` suffices). -/
def natCharsAux : Nat → Nat → List Char
  | 0, _ => []
  | fuel + 1, n =>
    if n < 10 then [digitChar n]
    else natCharsAux fuel (n / 10) ++ [digitChar (n % 10)]

/-- Decimal digits of a natural number, most significant first
(Python `repr` of a non-negative `int`). -/
def natChars (n : Nat) : List Char := natCharsAux (n + 1) n

/-- Python `repr` of an `int` (JSON number emitted by `json.dumps`). -/
def intChars (n : Int) : List Char :=
  if n < 0 then '-' :: natChars n.natAbs else natChars n.toNat

/-- Opening brace character. -/
def lbrace : Char := Char.ofNat 123

/-- Closing brace character. -/
def rbrace : Char := Char.ofNat 125

/-- `json.dumps(card_dict)` for the dict built by `encrypt_card_data`
(insertion order: card_number, expiry_month, expiry_year, cvv,
cardholder_name; default separators `", "` and `": "`). -/
def dumpsCard (c : CardData) : List Char :=
  lbrace ::
    (quoteStr "card_number" ++ [':', ' '] ++ quoteStr c.card_number ++ [',', ' '] ++
     quoteStr "expiry_month" ++ [':', ' '] ++ intChars c.expiry_month ++ [',', ' '] ++
     quoteStr "expiry_year" ++ [':', ' '] ++ intChars c.expiry_year ++ [',', ' '] ++
     quoteStr "cvv" ++ [':', ' '] ++ quoteStr c.cvv ++ [',', ' '] ++
     quoteStr "cardholder_name" ++ [':', ' '] ++ quoteStr c.cardholder_name ++ [rbrace])

/-- Expect a literal character sequence, returning the remainder. -/
def parseLit : List Char → List Char → Option (List Char)
  | [], rest => some rest
  | c :: cs, r :: rs => if r = c then parseLit cs rs else none
  | _ :: _, [] => none

/-- The short escapes accepted by `json.loads` (`BACKSLASH` table). -/
def unescapeShort (e : Char) : Option Char :=
  if e = '"' then some '"'
  else if e = '\\' then some '\\'
  else if e = '/' then some '/'
  else if e = 'b' then some (Char.ofNat 8)
  else if e = 'f' then some (Char.ofNat 12)
  else if e = 'n' then some '\n'
  else if e = 'r' then some '\r'
  else if e = 't' then some '\t'
  else none

/-- Exactly four hex digits, as `json.loads` reads a `\uXXXX` escape. -/
def hex4 : List Char → Option (Nat × List Char)
  | h1 :: h2 :: h3 :: h4 :: rest => do
    let a ← hexVal h1
    let b ← hexVal h2
    let c ← hexVal h3
    let d ← hexVal h4
    some (((a * 16 + b) * 16 + c) * 16 + d, rest)
  | _ => none

/-- Body of a JSON string after the opening quote, as `json.loads` scans it:
plain characters up to the closing quote, short escapes, `\uXXXX` escapes,
and surrogate-pair recombination.  Returns the decoded content and the
remainder after the closing quote.  The `Nat` argument is structural fuel
(one unit per decoded character; any value above the decoded length gives
the scanner's result, and the wrapper below supplies an ample amount). -/
def psbF : Nat → List Char → Option (List Char × List Char)
  | 0, _ => none
  | _ + 1, [] => none
  | f + 1, c :: cs =>
    if c = '"' then some ([], cs)
    else if c = '\\' then
      match cs with
      | [] => none
      | e :: cs2 =>
        if e = 'u' then
          match hex4 cs2 with
          | none => none
          | some (n, cs3) =>
            if 55296 ≤ n ∧ n < 56320 then
              match cs3 with
              | b1 :: u2 :: cs3b =>
                if b1 = '\\' ∧ u2 = 'u' then
                  match hex4 cs3b with
                  | none => none
                  | some (m, cs4) =>
                    if 56320 ≤ m ∧ m < 57344 then
                      (psbF f cs4).map fun p =>
                        (Char.ofNat (65536 + (n - 55296) * 1024 + (m - 56320)) :: p.1, p.2)
                    else none
                else none
              | _ => none
            else if 56320 ≤ n ∧ n < 57344 then none
            else (psbF f cs3).map fun p => (Char.ofNat n :: p.1, p.2)
        else
          match unescapeShort e with
          | some c2 => (psbF f cs2).map fun p => (c2 :: p.1, p.2)
          | none => none
    else (psbF f cs).map fun p => (c :: p.1, p.2)

/-- Body of a JSON string after the opening quote (fuel instantiated). -/
def parseStringBody (l : List Char) : Option (List Char × List Char) :=
  psbF (l.length + 1) l

/-- A JSON string literal including the opening quote. -/
def parseString : List Char → Option (List Char × List Char)
  | c :: cs => if c = '"' then parseStringBody cs else none
  | [] => none

/-- Greedy digit scan with accumulator. -/
def parseNatAux (acc : Nat) : List Char → Nat × List Char
  | [] => (acc, [])
  | c :: cs => if c.isDigit then parseNatAux (acc * 10 + (c.toNat - 48)) cs else (acc, c :: cs)

/-- A JSON integer (optional sign, at least one digit). -/
def parseInt : List Char → Option (Int × List Char)
  | [] => none
  | c :: cs =>
    if c = '-' then
      match cs with
      | [] => none
      | d :: ds =>
        if d.isDigit then
          let p := parseNatAux 0 (d :: ds)
          some (-(p.1 : Int), p.2)
        else none
    else if c.isDigit then
      let p := parseNatAux 0 (c :: cs)
      some ((p.1 : Int), p.2)
    else none

/-- Parse `"<key>": ` followed by a string value. -/
def parseKeyStr (key : String) (r : List Char) : Option (List Char × List Char) := do
  let r1 ← parseLit (quoteStr key ++ [':', ' ']) r
  parseString r1

/-- Parse `"<key>": ` followed by an integer value. -/
def parseKeyInt (key : String) (r : List Char) : Option (Int × List Char) := do
  let r1 ← parseLit (quoteStr key ++ [':', ' ']) r
  parseInt r1

/-- `json.loads` applied to the object layout emitted by `dumpsCard`,
producing the card dict (field for field). -/
def loadsCard (s : String) : Option CardData := do
  let r ← parseLit [lbrace] s.data
  let (cn, r) ← parseKeyStr "card_number" r
  let r ← parseLit [',', ' '] r
  let (em, r) ← parseKeyInt "expiry_month" r
  let r ← parseLit [',', ' '] r
  let (ey, r) ← parseKeyInt "expiry_year" r
  let r ← parseLit [',', ' '] r
  let (cv, r) ← parseKeyStr "cvv" r
  let r ← parseLit [',', ' '] r
  let (nm, r) ← parseKeyStr "cardholder_name" r
  let r ← parseLit [rbrace] r
  match r with
  | [] => some ⟨⟨cn⟩, em, ey, ⟨cv⟩, ⟨nm⟩⟩
  | _ => none

/-- A character of the standard base64 alphabet (`base64.b64encode`). -/
def b64Char (n : Nat) : Char :=
  if n < 26 then Char.ofNat (65 + n)
  else if n < 52 then Char.ofNat (97 + (n - 26))
  else if n < 62 then Char.ofNat (48 + (n - 52))
  else if n = 62 then '+'
  else '/'

/-- Inverse of the base64 alphabet. -/
def b64CharVal (c : Char) : Option Nat :=
  if 65 ≤ c.toNat ∧ c.toNat ≤ 90 then some (c.toNat - 65)
  else if 97 ≤ c.toNat ∧ c.toNat ≤ 122 then some (c.toNat - 97 + 26)
  else if 48 ≤ c.toNat ∧ c.toNat ≤ 57 then some (c.toNat - 48 + 52)
  else if c = '+' then some 62
  else if c = '/' then some 63
  else none

/-- `base64.b64encode` over a byte list (three bytes per four characters,
`=`-padded). -/
def b64encode : List Nat → List Char
  | [] => []
  | [a] => [b64Char (a / 4), b64Char (a % 4 * 16), '=', '=']
  | [a, b] => [b64Char (a / 4), b64Char (a % 4 * 16 + b / 16), b64Char (b % 16 * 4), '=']
  | a :: b :: c :: rest =>
    b64Char (a / 4) :: b64Char (a % 4 * 16 + b / 16) ::
      b64Char (b % 16 * 4 + c / 64) :: b64Char (c % 64) :: b64encode rest

/-- `base64.b64decode` on well-formed base64 text: four characters per
block, `=`-padding accepted only as the final block's tail. -/
def b64decode : List Char → Option (List Nat)
  | [] => some []
  | c1 :: c2 :: c3 :: c4 :: rest => do
    let a ← b64CharVal c1
    let b ← b64CharVal c2
    if c3 = '=' then
      if c4 = '=' ∧ rest = [] then some [a * 4 + b / 16] else none
    else do
      let c ← b64CharVal c3
      if c4 = '=' then
        if rest = [] then some [a * 4 + b / 16, b % 16 * 16 + c / 4] else none
      else do
        let d ← b64CharVal c4
        let tl ← b64decode rest
        some ((a * 4 + b / 16) :: (b % 16 * 16 + c / 4) :: (c % 4 * 64 + d) :: tl)
  | _ => none

/-- The Fernet cipher of `EncryptionService` (external library), together
with the UTF-8 codec its input passes through: an abstract transformation
from the serialized JSON text to token bytes and back. -/
structure Cipher where
  enc : String → List Nat
  dec : List Nat → Option String

/-- `EncryptionService.encrypt_card_data`: dict → `json.dumps` → cipher →
`base64.b64encode` → str. -/
def encrypt_card_data (ci : Cipher) (card : CardData) : String :=
  ⟨b64encode (ci.enc ⟨dumpsCard card⟩)⟩

/-- `EncryptionService.decrypt_card_data`: str → `base64.b64decode` →
cipher decrypt → `json.loads` → dict.  A failure at any step (the Python code
re-raises the underlying exception) is `none`. -/
def decrypt_card_data (ci : Cipher) (s : String) : Option CardData := do
  let bytes ← b64decode s.data
  let json ← ci.dec bytes
  loadsCard json

/-- Structural validity of card data, from the pydantic `CardData` model:
field constraints plus the `validate_card_number` validator (13–19 digits
after stripping separators — the stored form is all digits). -/
def CardData.structValid (c : CardData) : Bool :=
  decide (13 ≤ c.card_number.length) && decide (c.card_number.length ≤ 19) &&
  c.card_number.data.all (·.isDigit) &&
  decide (1 ≤ c.expiry_month) && decide (c.expiry_month ≤ 12) &&
  decide (2024 ≤ c.expiry_year) && decide (c.expiry_year ≤ 2050) &&
  decide (3 ≤ c.cvv.length) && decide (c.cvv.length ≤ 4) &&
  decide (1 ≤ c.cardholder_name.length) && decide (c.cardholder_name.length ≤ 100)

example : loadsCard ⟨dumpsCard ⟨"4111111111111111", 12, 2030, "123", "Jane Q. Doe"⟩⟩ =
    some ⟨"4111111111111111", 12, 2030, "123", "Jane Q. Doe"⟩ := by decide

example : b64decode (b64encode [255, 0, 17, 42]) = some [255, 0, 17, 42] := by decide

/-! ### Persistence collaborator (`database/connection.py` + the SQL issued
by `services/payment_service.py`)

The relational store is modelled as in-memory lists of rows; each SQL
statement of `payment_service.py` becomes a function on `DB`.  `INSERT`
appends a row, `UPDATE ... WHERE x = %s` maps over the rows touching the
matching ones, `SELECT ... WHERE x = %s ... fetch_one` is `List.find?`.
Row timestamps (`CURRENT_TIMESTAMP` defaults) take the caller's `now`. -/

/-- A row of the `transactions` table, with the columns
`_create_transaction` inserts plus the defaulted ones. -/
structure TxnRecord where
  transaction_id : String
  merchant_id : String
  amount : Dec
  currency : String
  status : String
  payment_method : String
  card_last_four : Option String
  encrypted_card_data : Option String
  description : Option String
  metadata : List (String × String)
  authorization_id : Option String
  capture_id : Option String
  created_at : Nat
  updated_at : Nat
  expires_at : Nat
deriving DecidableEq, Repr

/-- A row of the `refunds` table (`transaction_ref` models the
`refunds.transaction_id` column, which stores the parent row's primary key;
here the parent is identified by its `transaction_id` string). -/
structure RefundRecord where
  refund_id : String
  transaction_ref : String
  amount : Dec
  currency : String
  status : String
  reason : Option String
  metadata : List (String × String)
  external_refund_id : Option String
  created_at : Nat
  updated_at : Nat
  processed_at : Option Nat
deriving DecidableEq, Repr

/-- A row of the `audit_logs` table. -/
structure AuditRecord where
  transaction_ref : Option String
  event_type : String
  correlation_id : String
deriving DecidableEq, Repr

/-- The durable store. -/
structure DB where
  transactions : List TxnRecord
  refunds : List RefundRecord
  audit_logs : List AuditRecord
deriving DecidableEq, Repr

/-- `PaymentService._get_transaction`:
`SELECT * FROM transactions WHERE transaction_id = %s`, `fetch_one`. -/
def get_transaction (db : DB) (transaction_id : String) : Option TxnRecord :=
  db.transactions.find? (fun r => r.transaction_id = transaction_id)

/-- `PaymentService._create_transaction`: `INSERT INTO transactions ...
RETURNING *`, with `pending` status and a 24-hour expiry. -/
def create_transaction (db : DB) (transaction_id : String) (req : PaymentRequest)
    (encrypted_card_data card_last_four : Option String) (now : Nat) :
    TxnRecord × DB :=
  let row : TxnRecord := {
    transaction_id := transaction_id
    merchant_id := req.merchant_id
    amount := req.amount
    currency := req.currency
    status := PaymentStatus.pending.value
    payment_method := req.payment_method.value
    card_last_four := card_last_four
    encrypted_card_data := encrypted_card_data
    description := req.description
    metadata := req.metadata
    authorization_id := none
    capture_id := none
    created_at := now
    updated_at := now
    expires_at := now + 24 * 3600 }
  (row, { db with transactions := db.transactions ++ [row] })

/-- `PaymentService._update_transaction_authorization`:
`UPDATE transactions SET authorization_id = %s, status = %s,
updated_at = CURRENT_TIMESTAMP WHERE transaction_id = %s`; the status is
`authorized` when the gateway result's status is `"approved"`, else
`failed`. -/
def update_transaction_authorization (db : DB) (transaction_id : String)
    (authorization_result : AuthResult) (now : Nat) : DB :=
  let status :=
    if authorization_result.status = some "approved" then PaymentStatus.authorized
    else PaymentStatus.failed
  { db with
    transactions := db.transactions.map fun r =>
      if r.transaction_id = transaction_id then
        { r with authorization_id := authorization_result.authorization_id
                 status := status.value
                 updated_at := now }
      else r }

/-- The body of the gateway's capture response (`capture_result` dict). -/
structure CaptureResult where
  capture_id : Option String
deriving DecidableEq, Repr

/-- Outcome of `BankingService.capture_payment` (no retry decorator):
a raised transport exception or a response body. -/
inductive CaptureOutcome
  | transport (e : PError)
  | response (r : CaptureResult)
deriving Repr

/-- `PaymentService._update_transaction_capture`:
`UPDATE transactions SET capture_id = %s, updated_at = CURRENT_TIMESTAMP
WHERE transaction_id = %s`. -/
def update_transaction_capture (db : DB) (transaction_id : String)
    (capture_result : CaptureResult) (now : Nat) : DB :=
  { db with
    transactions := db.transactions.map fun r =>
      if r.transaction_id = transaction_id then
        { r with capture_id := capture_result.capture_id, updated_at := now }
      else r }

/-- `PaymentService._update_transaction_status`:
`UPDATE transactions SET status = %s, updated_at = CURRENT_TIMESTAMP
WHERE transaction_id = %s`. -/
def update_transaction_status (db : DB) (transaction_id : String)
    (status : PaymentStatus) (now : Nat) : DB :=
  { db with
    transactions := db.transactions.map fun r =>
      if r.transaction_id = transaction_id then
        { r with status := status.value, updated_at := now }
      else r }

/-- `PaymentService._create_refund`: a `SELECT id FROM transactions` lookup
for the parent row followed by `INSERT INTO refunds ...` in `pending`
status; subscripting a missing lookup result is a Python `TypeError`. -/
def create_refund (db : DB) (refund_id transaction_id : String) (amount : Dec)
    (currency : String) (reason : Option String) (metadata : List (String × String))
    (now : Nat) : Except PError DB :=
  match get_transaction db transaction_id with
  | none => .error (.typeError "NoneType is not subscriptable")
  | some parent =>
    let row : RefundRecord := {
      refund_id := refund_id
      transaction_ref := parent.transaction_id
      amount := amount
      currency := currency
      status := RefundStatus.pending.value
      reason := reason
      metadata := metadata
      external_refund_id := none
      created_at := now
      updated_at := now
      processed_at := none }
    .ok { db with refunds := db.refunds ++ [row] }

/-- `PaymentService._update_refund_status`:
`UPDATE refunds SET status = %s, external_refund_id = %s, updated_at =
CURRENT_TIMESTAMP, processed_at = CASE WHEN %s = 'completed' THEN
CURRENT_TIMESTAMP ELSE processed_at END WHERE refund_id = %s`. -/
def update_refund_status (db : DB) (refund_id : String) (status : RefundStatus)
    (external_refund_id : Option String) (now : Nat) : DB :=
  { db with
    refunds := db.refunds.map fun r =>
      if r.refund_id = refund_id then
        { r with status := status.value
                 external_refund_id := external_refund_id
                 updated_at := now
                 processed_at := if status.value = "completed" then some now else r.processed_at }
      else r }

/-- `PaymentService._create_audit_log`: a `SELECT id FROM transactions`
lookup (a missing parent yields a NULL reference, not an error) followed by
`INSERT INTO audit_logs ...`. -/
def create_audit_log (db : DB) (transaction_id event_type correlation_id : String) : DB :=
  let ref := (get_transaction db transaction_id).map (fun r => r.transaction_id)
  { db with audit_logs := db.audit_logs ++ [{ transaction_ref := ref, event_type := event_type, correlation_id := correlation_id }] }

/-! ### Cache collaborator (`services/cache_service.py`) -/

/-- `models/payment.py` `PaymentStatusResponse` (also the value cached by
`get_payment_status`; Python round-trips it through `response.dict()` /
`parse_obj`, an identity on well-formed values). -/
structure PaymentStatusResponse where
  transaction_id : String
  status : PaymentStatus
  amount : Dec
  currency : String
  payment_method : PaymentMethod
  card_last_four : Option String
  authorization_id : Option String
  capture_id : Option String
  description : Option String
  metadata : List (String × String)
  created_at : Nat
  updated_at : Nat
  expires_at : Nat
deriving DecidableEq, Repr

/-- One cache slot (`CacheService._cache[key]`). -/
structure CacheEntry where
  value : PaymentStatusResponse
  expires_at : Nat
  created_at : Nat
  accessed_at : Nat
deriving DecidableEq, Repr

/-- The in-memory TTL cache: insertion-ordered key/entry pairs plus the
configured size bound. -/
structure Cache where
  entries : List (String × CacheEntry)
  max_size : Nat
deriving DecidableEq, Repr

/-- `CacheService.get`: miss on an absent key; an expired entry
(`now > expires_at`) is deleted and reported as a miss; a hit refreshes
`accessed_at`. -/
def cache_get (c : Cache) (key : String) (now : Nat) :
    Option PaymentStatusResponse × Cache :=
  match c.entries.find? (fun p => p.1 = key) with
  | none => (none, c)
  | some (_, e) =>
    if now > e.expires_at then
      (none, { c with entries := c.entries.filter (fun p => ¬ p.1 = key) })
    else
      (some e.value,
       { c with entries := c.entries.map fun p =>
          if p.1 = key then (p.1, { p.2 with accessed_at := now }) else p })

/-- `CacheService._evict_lru`: drop the entry with the smallest
`accessed_at` (first such entry in iteration order, as Python's `min`). -/
def cache_evict_lru (c : Cache) : Cache :=
  match c.entries with
  | [] => c
  | (k, e) :: rest =>
    let lru := rest.foldl
      (fun best p => if p.2.accessed_at < best.2.accessed_at then p else best) (k, e)
    { c with entries := c.entries.filter (fun p => ¬ p.1 = lru.1) }

/-- `CacheService.set`: evict the LRU entry when inserting a new key at the
size bound, then store (replacing in place, or appending a new key). -/
def cache_set (c : Cache) (key : String) (value : PaymentStatusResponse)
    (ttl : Nat) (now : Nat) : Cache :=
  let c1 :=
    if c.entries.length ≥ c.max_size ∧ ¬ c.entries.any (fun p => p.1 = key) then
      cache_evict_lru c
    else c
  let entry : CacheEntry :=
    { value := value, expires_at := now + ttl, created_at := now, accessed_at := now }
  if c1.entries.any (fun p => p.1 = key) then
    { c1 with entries := c1.entries.map fun p => if p.1 = key then (key, entry) else p }
  else
    { c1 with entries := c1.entries ++ [(key, entry)] }

/-! ### The orchestrator (`services/payment_service.py`) -/

/-- `PaymentStatus(value)` — raises `ValueError` on an unknown value. -/
def PaymentStatus.ofString (s : String) : Option PaymentStatus :=
  if s = "pending" then some .pending
  else if s = "authorized" then some .authorized
  else if s = "captured" then some .captured
  else if s = "failed" then some .failed
  else if s = "cancelled" then some .cancelled
  else if s = "expired" then some .expired
  else none

/-- `PaymentMethod(value)` — raises `ValueError` on an unknown value. -/
def PaymentMethod.ofString (s : String) : Option PaymentMethod :=
  if s = "credit_card" then some .credit_card
  else if s = "debit_card" then some .debit_card
  else if s = "bank_transfer" then some .bank_transfer
  else if s = "digital_wallet" then some .digital_wallet
  else none

/-- `models/payment.py` `PaymentResponse`. -/
structure PaymentResponse where
  transaction_id : String
  status : PaymentStatus
  amount : Dec
  currency : String
  payment_method : PaymentMethod
  card_last_four : Option String
  authorization_id : Option String
  capture_id : Option String
  description : Option String
  metadata : List (String × String)
  created_at : Nat
  updated_at : Nat
deriving DecidableEq, Repr

/-- `models/payment.py` `RefundResponse`. -/
structure RefundResponse where
  refund_id : String
  transaction_id : String
  amount : Dec
  currency : String
  status : RefundStatus
  reason : Option String
  external_refund_id : Option String
  metadata : List (String × String)
  created_at : Nat
  updated_at : Nat
  processed_at : Option Nat
deriving DecidableEq, Repr

/-- The body of the gateway's refund response (`refund_result` dict). -/
structure RefundGatewayResult where
  status : Option String
  refund_id : Option String
deriving DecidableEq, Repr

/-- Outcome of `BankingService.process_refund` (no retry decorator). -/
inductive RefundGatewayOutcome
  | transport (e : PError)
  | response (r : RefundGatewayResult)
deriving Repr

/-- The Banking Gateway oracle for one orchestrator operation: the outcome
of the `j`-th HTTP authorize attempt, of the (single) capture call, and of
the (single) refund call. -/
structure Gateway where
  auth : Nat → AuthAttempt
  capture : CaptureOutcome
  refund : RefundGatewayOutcome

/-- Observable side effects of one orchestrator operation. -/
structure Trace where
  captureCalls : Nat
  authAttempts : Nat
  dbStatements : List String
  counters : List String
  events : List String
deriving DecidableEq, Repr

/-- The empty trace. -/
def Trace.empty : Trace := ⟨0, 0, [], [], []⟩

/-- Result of `process_payment`: the returned value or raised exception, the
final persisted state, and the effect trace. -/
structure PayResult where
  result : Except PError PaymentResponse
  db : DB
  trace : Trace

/-- Python `card_number[-4:]`. -/
def takeLast4 (s : String) : String := ⟨s.data.drop (s.data.length - 4)⟩

/-- `PaymentService._validate_merchant`: `ValueError("Invalid merchant ID")`
when the merchant id has fewer than 3 characters. -/
def validate_merchant (merchant_id : String) : Except PError Unit :=
  if merchant_id.length < 3 then .error (.valueError "Invalid merchant ID") else .ok ()

/-- Steps 8–11 of `process_payment`'s `try` block: final status update,
event publication, audit log, response assembly, success counter. -/
def process_payment_finish (req : PaymentRequest) (transaction_id correlation_id : String)
    (now : Nat) (transaction_record : TxnRecord) (authorization_result : AuthResult)
    (card_last_four : Option String) (final_status : PaymentStatus)
    (captureOpt : Option CaptureResult) (db : DB) (t : Trace) :
    Except PError PaymentResponse × DB × Trace :=
  let db4 := update_transaction_status db transaction_id final_status now
  let db5 := create_audit_log db4 transaction_id "payment_created" correlation_id
  let response : PaymentResponse := {
    transaction_id := transaction_id
    status := final_status
    amount := req.amount
    currency := req.currency
    payment_method := req.payment_method
    card_last_four := card_last_four
    authorization_id := authorization_result.authorization_id
    capture_id := if final_status = .captured then captureOpt.bind (fun c => c.capture_id) else none
    description := req.description
    metadata := req.metadata
    created_at := transaction_record.created_at
    updated_at := now }
  (.ok response, db5,
   { t with
     dbStatements := t.dbStatements ++
       ["update transactions status", "select transactions id", "insert audit_logs"]
     events := t.events ++ ["payment_status_changed"]
     counters := t.counters ++ ["payment.processed"] })

/-- The `try` block of `PaymentService.process_payment` (steps 2–11):
merchant validation, card encryption, transaction creation, authorize with
retries, authorization update, conditional capture and capture update, then
`process_payment_finish`. -/
def process_payment_attempt (ci : Cipher) (g : Gateway) (req : PaymentRequest)
    (transaction_id correlation_id : String) (now : Nat) (db : DB) :
    Except PError PaymentResponse × DB × Trace :=
  match validate_merchant req.merchant_id with
  | .error e => (.error e, db, Trace.empty)
  | .ok _ =>
    let encrypted_card_data := req.card_data.map (encrypt_card_data ci)
    let card_last_four := req.card_data.map (fun cd => takeLast4 cd.card_number)
    let (transaction_record, db1) :=
      create_transaction db transaction_id req encrypted_card_data card_last_four now
    let t1 : Trace := { Trace.empty with dbStatements := ["insert transactions"] }
    let (authRes, attempts) := authorize_payment g.auth 0 3
    let t2 := { t1 with authAttempts := attempts }
    match authRes with
    | .error e => (.error e, db1, t2)
    | .ok authorization_result =>
      let db2 := update_transaction_authorization db1 transaction_id authorization_result now
      let t3 := { t2 with dbStatements := t2.dbStatements ++ ["update transactions authorization"] }
      if authorization_result.status = some "approved" then
        let t4 := { t3 with captureCalls := t3.captureCalls + 1 }
        match g.capture with
        | .transport e => (.error e, db2, t4)
        | .response capture_result =>
          let db3 := update_transaction_capture db2 transaction_id capture_result now
          let t5 := { t4 with dbStatements := t4.dbStatements ++ ["update transactions capture"] }
          process_payment_finish req transaction_id correlation_id now transaction_record
            authorization_result card_last_four PaymentStatus.captured (some capture_result) db3 t5
      else
        process_payment_finish req transaction_id correlation_id now transaction_record
          authorization_result card_last_four PaymentStatus.failed none db2 t3

/-- `PaymentService.process_payment`: the `try` block, with the `except`
handler that force-updates the transaction to `failed`, increments the
`payment.failed` counter, and re-raises the caught exception (`raise`). -/
def process_payment (ci : Cipher) (g : Gateway) (req : PaymentRequest)
    (transaction_id correlation_id : String) (now : Nat) (db : DB) : PayResult :=
  match process_payment_attempt ci g req transaction_id correlation_id now db with
  | (.ok r, db1, t1) => { result := .ok r, db := db1, trace := t1 }
  | (.error e, db1, t1) =>
    { result := .error e
      db := update_transaction_status db1 transaction_id PaymentStatus.failed now
      trace := { t1 with
        dbStatements := t1.dbStatements ++ ["update transactions status"]
        counters := t1.counters ++ ["payment.failed"] } }

/-- pydantic validation of the `CardData` request model: field constraints in
declaration order, then the `validate_card_number` validator (strip
non-digits, re-check the length, store the stripped form). -/
def validate_card_data (cd : CardData) : Except PError CardData :=
  if ¬ (13 ≤ cd.card_number.length ∧ cd.card_number.length ≤ 19) then
    .error (.pydanticValidation "card_number length")
  else if ¬ (1 ≤ cd.expiry_month ∧ cd.expiry_month ≤ 12) then
    .error (.pydanticValidation "expiry_month range")
  else if ¬ (2024 ≤ cd.expiry_year ∧ cd.expiry_year ≤ 2050) then
    .error (.pydanticValidation "expiry_year range")
  else if ¬ (3 ≤ cd.cvv.length ∧ cd.cvv.length ≤ 4) then
    .error (.pydanticValidation "cvv length")
  else if ¬ (1 ≤ cd.cardholder_name.length ∧ cd.cardholder_name.length ≤ 100) then
    .error (.pydanticValidation "cardholder_name length")
  else
    let card_num : String := ⟨cd.card_number.data.filter (fun ch => ch.isDigit)⟩
    if ¬ (13 ≤ card_num.length ∧ card_num.length ≤ 19) then
      .error (.pydanticValidation "Invalid card number length")
    else .ok { cd with card_number := card_num }

/-- pydantic validation of the `PaymentRequest` model, as the API adapter
performs it before the orchestrator is invoked: merchant id length 1–100,
amount `gt=0` with at most 2 decimal places, 3-letter currency normalized to
uppercase, optional card data validated structurally. -/
def validate_payment_request (req : PaymentRequest) : Except PError PaymentRequest :=
  if ¬ (1 ≤ req.merchant_id.length ∧ req.merchant_id.length ≤ 100) then
    .error (.pydanticValidation "merchant_id length")
  else if ¬ req.amount.posB then
    .error (.pydanticValidation "amount must be greater than 0")
  else if ¬ req.amount.dp2B then
    .error (.pydanticValidation "Amount cannot have more than 2 decimal places")
  else if ¬ req.currency.length = 3 then
    .error (.pydanticValidation "currency length")
  else
    match req.card_data with
    | none => .ok { req with currency := req.currency.toUpper }
    | some cd =>
      match validate_card_data cd with
      | .error e => .error e
      | .ok cd2 => .ok { req with currency := req.currency.toUpper, card_data := some cd2 }

/-- The API boundary for payments: pydantic request parsing (a failure never
reaches the orchestrator and touches nothing), then `process_payment`. -/
def handle_payment (ci : Cipher) (g : Gateway) (req : PaymentRequest)
    (transaction_id correlation_id : String) (now : Nat) (db : DB) : PayResult :=
  match validate_payment_request req with
  | .error e => { result := .error e, db := db, trace := Trace.empty }
  | .ok req2 => process_payment ci g req2 transaction_id correlation_id now db

/-- Result of `get_payment_status`: the returned snapshot or raised
exception, and the cache state after the call. -/
structure StatusResult where
  result : Except PError PaymentStatusResponse
  cache : Cache
deriving Repr

/-- `PaymentService.get_payment_status`: cache probe, database read on a
miss, `ValueError` when absent, 5-minute cache fill on success. -/
def get_payment_status (transaction_id : String) (now : Nat) (cache : Cache) (db : DB) :
    StatusResult :=
  let key := "payment_status:" ++ transaction_id
  match cache_get cache key now with
  | (some cached_status, cache1) => { result := .ok cached_status, cache := cache1 }
  | (none, cache1) =>
    match get_transaction db transaction_id with
    | none =>
      { result := .error (.valueError ("Transaction " ++ transaction_id ++ " not found"))
        cache := cache1 }
    | some row =>
      match PaymentStatus.ofString row.status, PaymentMethod.ofString row.payment_method with
      | some st, some pm =>
        let response : PaymentStatusResponse := {
          transaction_id := row.transaction_id
          status := st
          amount := row.amount
          currency := row.currency
          payment_method := pm
          card_last_four := row.card_last_four
          authorization_id := row.authorization_id
          capture_id := row.capture_id
          description := row.description
          metadata := row.metadata
          created_at := row.created_at
          updated_at := row.updated_at
          expires_at := row.expires_at }
        { result := .ok response, cache := cache_set cache1 key response 300 now }
      | _, _ =>
        { result := .error (.valueError "is not a valid enumeration member"), cache := cache1 }

/-- Result of `process_refund`. -/
structure RefundResult where
  result : Except PError RefundResponse
  db : DB
  trace : Trace

/-- The `try` block of `PaymentService.process_refund` (existence and status
preconditions, amount resolution and cap check, refund row creation, gateway
refund call, refund status update, event, audit log, response assembly). -/
def process_refund_attempt (g : Gateway) (transaction_id : String)
    (refund_request : RefundRequest) (refund_id correlation_id : String)
    (now : Nat) (db : DB) : Except PError RefundResponse × DB × Trace :=
  let t0 : Trace := { Trace.empty with dbStatements := ["select transactions"] }
  match get_transaction db transaction_id with
  | none => (.error (.valueError ("Transaction " ++ transaction_id ++ " not found")), db, t0)
  | some original_transaction =>
    if ¬ original_transaction.status = PaymentStatus.captured.value then
      (.error (.valueError "Can only refund captured transactions"), db, t0)
    else
      let refund_amount := refund_request.amount.getD original_transaction.amount
      if Dec.gtB refund_amount original_transaction.amount then
        (.error (.valueError "Refund amount cannot exceed original transaction amount"), db, t0)
      else
        match create_refund db refund_id transaction_id refund_amount
          original_transaction.currency refund_request.reason refund_request.metadata now with
        | .error e => (.error e, db, t0)
        | .ok db1 =>
          let t1 := { t0 with dbStatements := t0.dbStatements ++ ["select transactions id", "insert refunds"] }
          match g.refund with
          | .transport e => (.error e, db1, t1)
          | .response refund_result =>
            let final_status :=
              if refund_result.status = some "refunded" then RefundStatus.completed
              else RefundStatus.failed
            let db2 := update_refund_status db1 refund_id final_status refund_result.refund_id now
            let db3 := create_audit_log db2 transaction_id "refund_created" correlation_id
            let t2 := { t1 with
              dbStatements := t1.dbStatements ++
                ["update refunds status", "select transactions id", "insert audit_logs"]
              events := t1.events ++ ["refund_status_changed"]
              counters := t1.counters ++ ["refund.processed"] }
            let response : RefundResponse := {
              refund_id := refund_id
              transaction_id := transaction_id
              amount := refund_amount
              currency := original_transaction.currency
              status := final_status
              reason := refund_request.reason
              external_refund_id := refund_result.refund_id
              metadata := refund_request.metadata
              created_at := now
              updated_at := now
              processed_at := if final_status = RefundStatus.completed then some now else none }
            (.ok response, db3, t2)

/-- `PaymentService.process_refund`: the `try` block, with the `except`
handler that force-updates the refund to `failed`, increments the
`refund.failed` counter, and re-raises the caught exception. -/
def process_refund (g : Gateway) (transaction_id : String)
    (refund_request : RefundRequest) (refund_id correlation_id : String)
    (now : Nat) (db : DB) : RefundResult :=
  match process_refund_attempt g transaction_id refund_request refund_id correlation_id now db with
  | (.ok r, db1, t1) => { result := .ok r, db := db1, trace := t1 }
  | (.error e, db1, t1) =>
    { result := .error e
      db := update_refund_status db1 refund_id RefundStatus.failed none now
      trace := { t1 with
        dbStatements := t1.dbStatements ++ ["update refunds status"]
        counters := t1.counters ++ ["refund.failed"] } }

/-! ### Helper lemmas: keyed lookups through keyed updates -/

/-- A keyed `UPDATE` commutes with a keyed `SELECT` when the update
preserves the key. -/
theorem find_map_keyed (l : List TxnRecord) (tid : String) (f : TxnRecord → TxnRecord)
    (hf : ∀ r, (f r).transaction_id = r.transaction_id) :
    (l.map fun r => if r.transaction_id = tid then f r else r).find?
        (fun r => r.transaction_id = tid)
      = (l.find? (fun r => r.transaction_id = tid)).map f := by
  induction l with
  | nil => rfl
  | cons a l ih =>
    by_cases h : a.transaction_id = tid
    · simp [List.find?, h, hf]
    · simp [List.find?, h, ih]

/-- A keyed `SELECT` over appended rows falls through to the appended rows
when no earlier row matches. -/
theorem find_append_fresh (l : List TxnRecord) (l2 : List TxnRecord) (tid : String)
    (hfresh : ∀ r ∈ l, ¬ r.transaction_id = tid) :
    (l ++ l2).find? (fun r => r.transaction_id = tid)
      = l2.find? (fun r => r.transaction_id = tid) := by
  induction l with
  | nil => rfl
  | cons a l ih =>
    have ha := hfresh a (by simp)
    simp only [List.cons_append, List.find?]
    rw [decide_eq_false ha]
    exact ih (fun r hr => hfresh r (by simp [hr]))

/-! ### Concrete fixtures -/

/-- A cipher used where only the ciphertext's existence matters. -/
def trivialCipher : Cipher := ⟨fun _ => [], fun _ => none⟩

/-- A gateway that approves, captures and refunds. -/
def approvedGateway : Gateway := {
  auth := fun _ => .response ⟨some "approved", some "auth_1", none, none⟩
  capture := .response ⟨some "cap_1"⟩
  refund := .response ⟨some "refunded", some "ext_1"⟩ }

/-- A gateway that declines authorization. -/
def declinedGateway : Gateway := {
  auth := fun _ => .response ⟨some "declined", none, some "Payment declined", some "51"⟩
  capture := .response ⟨some "cap_1"⟩
  refund := .response ⟨some "refunded", some "ext_1"⟩ }

/-- A gateway whose transport always fails. -/
def downGateway : Gateway := {
  auth := fun _ => .transport (.exceptionError "Banking service timeout")
  capture := .transport (.exceptionError "Banking service timeout")
  refund := .transport (.exceptionError "Banking service timeout") }

/-- A well-formed credit-card payment request. -/
def reqFixture : PaymentRequest := {
  merchant_id := "merchant_123"
  amount := ⟨9999, 2⟩
  currency := "USD"
  payment_method := .credit_card
  card_data := some ⟨"4111111111111111", 12, 2030, "123", "Jane Doe"⟩
  description := none
  metadata := [] }

/-- The empty store. -/
def emptyDB : DB := ⟨[], [], []⟩

/-- The empty cache (default bound from `config.py`). -/
def emptyCache : Cache := ⟨[], 1000⟩

/-- A persisted `captured` transaction of 99.99 USD. -/
def capturedTxnFixture : TxnRecord := {
  transaction_id := "txn_1"
  merchant_id := "merchant_123"
  amount := ⟨9999, 2⟩
  currency := "USD"
  status := "captured"
  payment_method := "credit_card"
  card_last_four := some "1111"
  encrypted_card_data := some ""
  description := none
  metadata := []
  authorization_id := some "auth_1"
  capture_id := some "cap_1"
  created_at := 0
  updated_at := 1
  expires_at := 86400 }

example :
    ((process_payment trivialCipher approvedGateway reqFixture "txn_1" "corr" 0 emptyDB).result.map
      fun r => (r.status, r.authorization_id, r.capture_id, r.card_last_four))
      = .ok (.captured, some "auth_1", some "cap_1", some "1111") := rfl

example :
    ((process_payment trivialCipher approvedGateway reqFixture "txn_1" "corr" 0 emptyDB).db.transactions.map
      fun r => r.status) = ["captured"] := by decide

example :
    ((process_payment trivialCipher declinedGateway reqFixture "txn_1" "corr" 0 emptyDB).result.map
      fun r => (r.status, r.capture_id)) = .ok (.failed, none) := rfl

example :
    (process_payment trivialCipher declinedGateway reqFixture "txn_1" "corr" 0 emptyDB).trace.captureCalls
      = 0 := by decide

/-! ### Claim C8: updates touch only their designated columns -/

/-- The non-designated columns of a transaction row: everything except
`authorization_id`, `capture_id`, `status`, `updated_at`. -/
def txnBase (r : TxnRecord) :
    String × String × Dec × String × String × Option String × Option String ×
      Option String × List (String × String) × Nat × Nat :=
  (r.transaction_id, r.merchant_id, r.amount, r.currency, r.payment_method,
   r.card_last_four, r.encrypted_card_data, r.description, r.metadata,
   r.created_at, r.expires_at)

/-- A keyed update whose row function preserves the non-designated columns
preserves them across the whole table. -/
theorem map_update_txnBase (l : List TxnRecord) (tid : String) (f : TxnRecord → TxnRecord)
    (hf : ∀ r, txnBase (f r) = txnBase r) :
    ((l.map fun r => if r.transaction_id = tid then f r else r).map txnBase)
      = l.map txnBase := by
  induction l with
  | nil => rfl
  | cons a l ih =>
    by_cases h : a.transaction_id = tid <;> simp [h, hf, ih]

/-- `process_refund_attempt` never writes to the `transactions` table. -/
theorem refund_attempt_transactions (g : Gateway) (transaction_id : String)
    (refund_request : RefundRequest) (refund_id correlation_id : String)
    (now : Nat) (db : DB) :
    (process_refund_attempt g transaction_id refund_request refund_id
        correlation_id now db).2.1.transactions = db.transactions := by
  unfold process_refund_attempt create_refund update_refund_status create_audit_log
  repeat' first
    | rfl
    | split
    | dsimp only
    | simp_all

/-- Claim C8: the authorization update, the capture update, the status
update, and refund processing change only their designated transaction
columns (`authorization_id`, `capture_id`, `status`, `updated_at`); every
other column — in particular `amount` and `currency` — is unchanged, and
refund processing never writes the `transactions` table at all. -/
theorem c8_updates_touch_only_designated_fields :
    ∀ (db : DB) (tid : String) (ar : AuthResult) (cr : CaptureResult)
      (st : PaymentStatus) (now : Nat) (g : Gateway) (rreq : RefundRequest)
      (rid corr : String),
      ((update_transaction_authorization db tid ar now).transactions.map txnBase
          = db.transactions.map txnBase) ∧
      ((update_transaction_capture db tid cr now).transactions.map txnBase
          = db.transactions.map txnBase) ∧
      ((update_transaction_status db tid st now).transactions.map txnBase
          = db.transactions.map txnBase) ∧
      ((process_refund g tid rreq rid corr now db).db.transactions = db.transactions) := by
  intro db tid ar cr st now g rreq rid corr
  refine ⟨?_, ?_, ?_, ?_⟩
  · exact map_update_txnBase db.transactions tid _ (fun r => rfl)
  · exact map_update_txnBase db.transactions tid _ (fun r => rfl)
  · exact map_update_txnBase db.transactions tid _ (fun r => rfl)
  · have ht := refund_attempt_transactions g tid rreq rid corr now db
    unfold process_refund
    rcases h : process_refund_attempt g tid rreq rid corr now db with ⟨res, db1, t1⟩
    rw [h] at ht
    cases res with
    | ok r => simpa using ht
    | error e => simpa [update_refund_status] using ht

/-! ### Claims C4, C7, C10 -/

/-- A keyed refund `UPDATE` touching an id no row has is a no-op. -/
theorem map_refund_fresh (l : List RefundRecord) (rid : String)
    (f : RefundRecord → RefundRecord) (h : ∀ r ∈ l, ¬ r.refund_id = rid) :
    (l.map fun r => if r.refund_id = rid then f r else r) = l := by
  induction l with
  | nil => rfl
  | cons a l ih =>
    have ha := h a (by simp)
    simp only [List.map_cons, if_neg ha, List.cons.injEq, true_and]
    exact ih (fun r hr => h r (by simp [hr]))

/-- Claim C4: a refund against an existing non-`captured` transaction fails
with `ValueError("Can only refund captured transactions")`, and no refund
row is written — neither by the `try` block (which never reaches the
`INSERT`) nor by the compensating handler (whose `UPDATE` matches no row for
the freshly generated refund id). -/
theorem c4_refund_requires_captured (g : Gateway) (transaction_id : String)
    (refund_request : RefundRequest) (refund_id correlation_id : String)
    (now : Nat) (db : DB) (orig : TxnRecord)
    (hfound : get_transaction db transaction_id = some orig)
    (hstatus : ¬ orig.status = PaymentStatus.captured.value)
    (hfresh : ∀ r ∈ db.refunds, ¬ r.refund_id = refund_id) :
    (process_refund g transaction_id refund_request refund_id correlation_id now db).result
        = .error (.valueError "Can only refund captured transactions") ∧
    (process_refund g transaction_id refund_request refund_id correlation_id now db).db.refunds
        = db.refunds := by
  have hbody : process_refund_attempt g transaction_id refund_request refund_id
      correlation_id now db
      = (.error (.valueError "Can only refund captured transactions"), db,
         { Trace.empty with dbStatements := ["select transactions"] }) := by
    unfold process_refund_attempt
    rw [hfound]
    dsimp only
    rw [if_pos hstatus]
  unfold process_refund
  rw [hbody]
  refine ⟨rfl, ?_⟩
  show (update_refund_status db refund_id RefundStatus.failed none now).refunds = db.refunds
  simp only [update_refund_status]
  exact map_refund_fresh db.refunds refund_id _ hfresh

/-- A persisted transaction that is still `pending`. -/
def pendingTxnRow : TxnRecord :=
  { capturedTxnFixture with transaction_id := "txn_p", status := "pending" }

/-- A store holding only the pending transaction. -/
def dbPending : DB := ⟨[pendingTxnRow], [], []⟩

/-- Witness for C4 at a concrete pending transaction. -/
theorem c4_refund_requires_captured_witness :
    (process_refund approvedGateway "txn_p" ⟨none, none, []⟩ "ref_1" "corr" 5 dbPending).result
        = .error (.valueError "Can only refund captured transactions") ∧
    (process_refund approvedGateway "txn_p" ⟨none, none, []⟩ "ref_1" "corr" 5 dbPending).db.refunds
        = dbPending.refunds :=
  c4_refund_requires_captured approvedGateway "txn_p" ⟨none, none, []⟩ "ref_1" "corr" 5
    dbPending pendingTxnRow (by decide) (by decide) (by decide)

/-- Claim C7 (amended): when the cache misses and no transaction row exists,
`get_payment_status` raises the plain
`ValueError("Transaction {id} not found")` (which the API adapter maps to a
404); the declared `TransactionNotFoundError` class is not what is raised. -/
theorem c7_status_unknown_id_raises_value_error (transaction_id : String) (now : Nat)
    (cache : Cache) (db : DB)
    (hmiss : (cache_get cache ("payment_status:" ++ transaction_id) now).1 = none)
    (habsent : get_transaction db transaction_id = none) :
    (get_payment_status transaction_id now cache db).result
      = .error (.valueError ("Transaction " ++ transaction_id ++ " not found")) := by
  unfold get_payment_status
  dsimp only
  rcases hc : cache_get cache ("payment_status:" ++ transaction_id) now with ⟨v, c1⟩
  rw [hc] at hmiss
  simp only at hmiss
  subst hmiss
  dsimp only
  rw [habsent]

/-- Witness for the amended C7 at a concrete unknown id. -/
theorem c7_status_unknown_id_witness :
    (get_payment_status "txn_x" 0 emptyCache emptyDB).result
      = .error (.valueError ("Transaction " ++ "txn_x" ++ " not found")) :=
  c7_status_unknown_id_raises_value_error "txn_x" 0 emptyCache emptyDB rfl rfl

/-- Counterexample to C7 as stated: at a concrete unknown id the raised
exception is a `ValueError`, not a `TransactionNotFoundError`. -/
theorem c7_counterexample :
    (get_payment_status "txn_x" 0 emptyCache emptyDB).result
        = .error (.valueError "Transaction txn_x not found") ∧
    (PError.valueError "Transaction txn_x not found").isTransactionNotFound = false :=
  ⟨rfl, rfl⟩

/-- The status snapshot built from a stored transaction row. -/
def snapshotOf (row : TxnRecord) (st : PaymentStatus) (pm : PaymentMethod) :
    PaymentStatusResponse :=
  { transaction_id := row.transaction_id
    status := st
    amount := row.amount
    currency := row.currency
    payment_method := pm
    card_last_four := row.card_last_four
    authorization_id := row.authorization_id
    capture_id := row.capture_id
    description := row.description
    metadata := row.metadata
    created_at := row.created_at
    updated_at := row.updated_at
    expires_at := row.expires_at }

/-- Claim C10: `get_payment_status` never caches a negative result — with no
cache entry for the key and no transaction row, it raises before the
cache-write step and leaves the cache unchanged, so a later call for the
same id made once the row exists returns the stored snapshot. -/
theorem c10_no_negative_caching (transaction_id : String) (now : Nat)
    (cache : Cache) (db : DB)
    (hnokey : cache.entries.find? (fun p => p.1 = "payment_status:" ++ transaction_id) = none)
    (habsent : get_transaction db transaction_id = none) :
    ((get_payment_status transaction_id now cache db).result
        = .error (.valueError ("Transaction " ++ transaction_id ++ " not found"))) ∧
    ((get_payment_status transaction_id now cache db).cache = cache) ∧
    (∀ (db2 : DB) (row : TxnRecord) (now2 : Nat) (st : PaymentStatus) (pm : PaymentMethod),
      get_transaction db2 transaction_id = some row →
      PaymentStatus.ofString row.status = some st →
      PaymentMethod.ofString row.payment_method = some pm →
      (get_payment_status transaction_id now2
          (get_payment_status transaction_id now cache db).cache db2).result
        = .ok (snapshotOf row st pm)) := by
  have hmiss : cache_get cache ("payment_status:" ++ transaction_id) now = (none, cache) := by
    unfold cache_get
    rw [hnokey]
  have h1 : get_payment_status transaction_id now cache db
      = { result := .error (.valueError ("Transaction " ++ transaction_id ++ " not found"))
          cache := cache } := by
    unfold get_payment_status
    dsimp only
    rw [hmiss, habsent]
  refine ⟨by rw [h1], by rw [h1], ?_⟩
  intro db2 row now2 st pm hrow hst hpm
  rw [h1]
  have hmiss2 : cache_get cache ("payment_status:" ++ transaction_id) now2 = (none, cache) := by
    unfold cache_get
    rw [hnokey]
  unfold get_payment_status
  dsimp only
  rw [hmiss2, hrow]
  dsimp only
  rw [hst, hpm]
  rfl

/-- Witness for C10 at a concrete id: the first call misses and raises, the
second call after the row exists returns the snapshot. -/
theorem c10_no_negative_caching_witness :
    ((get_payment_status "txn_1" 0 emptyCache emptyDB).result
        = .error (.valueError ("Transaction " ++ "txn_1" ++ " not found"))) ∧
    ((get_payment_status "txn_1" 0 emptyCache emptyDB).cache = emptyCache) ∧
    ((get_payment_status "txn_1" 7
        (get_payment_status "txn_1" 0 emptyCache emptyDB).cache
        ⟨[capturedTxnFixture], [], []⟩).result
      = .ok (snapshotOf capturedTxnFixture .captured .credit_card)) := by
  have h := c10_no_negative_caching "txn_1" 0 emptyCache emptyDB rfl rfl
  exact ⟨h.1, h.2.1, h.2.2 ⟨[capturedTxnFixture], [], []⟩ capturedTxnFixture 7
    .captured .credit_card rfl rfl rfl⟩

/-! ### Claims C1 and C2 -/

/-- A status `UPDATE` seen through the keyed `SELECT`. -/
theorem get_transaction_update_status (db : DB) (tid : String) (st : PaymentStatus) (now : Nat) :
    get_transaction (update_transaction_status db tid st now) tid
      = (get_transaction db tid).map (fun r => { r with status := st.value, updated_at := now }) := by
  unfold get_transaction update_transaction_status
  exact find_map_keyed db.transactions tid _ (fun r => rfl)

/-- A capture `UPDATE` seen through the keyed `SELECT`. -/
theorem get_transaction_update_capture (db : DB) (tid : String) (c : CaptureResult) (now : Nat) :
    get_transaction (update_transaction_capture db tid c now) tid
      = (get_transaction db tid).map
          (fun r => { r with capture_id := c.capture_id, updated_at := now }) := by
  unfold get_transaction update_transaction_capture
  exact find_map_keyed db.transactions tid _ (fun r => rfl)

/-- An authorization `UPDATE` seen through the keyed `SELECT`. -/
theorem get_transaction_update_authorization (db : DB) (tid : String) (a : AuthResult) (now : Nat) :
    get_transaction (update_transaction_authorization db tid a now) tid
      = (get_transaction db tid).map
          (fun r => { r with
            authorization_id := a.authorization_id
            status := (if a.status = some "approved" then PaymentStatus.authorized
                       else PaymentStatus.failed).value
            updated_at := now }) := by
  unfold get_transaction update_transaction_authorization
  exact find_map_keyed db.transactions tid _ (fun r => rfl)

/-- Claim C2: when the gateway authorize call returns a non-approved
(declined) response, `process_payment` returns status `failed` with a null
capture identifier, and the gateway capture operation is never invoked. -/
theorem c2_declined_fails_without_capture (ci : Cipher) (g : Gateway) (req : PaymentRequest)
    (transaction_id correlation_id : String) (now : Nat) (db : DB) (r : AuthResult)
    (hm : ¬ req.merchant_id.length < 3)
    (hauth : (authorize_payment g.auth 0 3).1 = .ok r)
    (hdecl : ¬ r.status = some "approved") :
    (∃ resp, (process_payment ci g req transaction_id correlation_id now db).result
        = .ok resp ∧ resp.status = .failed ∧ resp.capture_id = none) ∧
    (process_payment ci g req transaction_id correlation_id now db).trace.captureCalls = 0 := by
  rcases hAp : authorize_payment g.auth 0 3 with ⟨res, k⟩
  rw [hAp] at hauth
  simp only at hauth
  subst hauth
  unfold process_payment process_payment_attempt process_payment_finish validate_merchant
  rw [if_neg hm]
  dsimp only
  rw [hAp]
  dsimp only
  rw [if_neg hdecl]
  dsimp only
  exact ⟨⟨_, rfl, rfl, rfl⟩, rfl⟩

/-- Witness for C2 at a concrete declined gateway. -/
theorem c2_declined_fails_without_capture_witness :
    (∃ resp, (process_payment trivialCipher declinedGateway reqFixture "txn_1" "corr" 0
        emptyDB).result = .ok resp ∧ resp.status = .failed ∧ resp.capture_id = none) ∧
    (process_payment trivialCipher declinedGateway reqFixture "txn_1" "corr" 0
        emptyDB).trace.captureCalls = 0 :=
  c2_declined_fails_without_capture trivialCipher declinedGateway reqFixture "txn_1" "corr" 0
    emptyDB ⟨some "declined", none, some "Payment declined", some "51"⟩
    (by decide) rfl (by decide)

/-- Claim C1: with an approved authorization carrying an authorization id
and a successful capture carrying a capture id, `process_payment` returns
status `captured` with those identifiers, and the persisted transaction's
final status equals the returned status. -/
theorem c1_approved_capture_persists (ci : Cipher) (g : Gateway) (req : PaymentRequest)
    (transaction_id correlation_id : String) (now : Nat) (db : DB) (r : AuthResult)
    (aid cid : String)
    (hm : ¬ req.merchant_id.length < 3)
    (hfresh : ∀ t ∈ db.transactions, ¬ t.transaction_id = transaction_id)
    (hauth : (authorize_payment g.auth 0 3).1 = .ok r)
    (happroved : r.status = some "approved")
    (haid : r.authorization_id = some aid)
    (hcap : g.capture = .response ⟨some cid⟩) :
    ∃ resp, (process_payment ci g req transaction_id correlation_id now db).result
        = .ok resp ∧
      resp.status = .captured ∧
      resp.authorization_id = some aid ∧
      resp.capture_id = some cid ∧
      ((get_transaction (process_payment ci g req transaction_id correlation_id now db).db
          transaction_id).map (fun t => t.status)) = some resp.status.value := by
  rcases hAp : authorize_payment g.auth 0 3 with ⟨res, k⟩
  rw [hAp] at hauth
  simp only at hauth
  subst hauth
  unfold process_payment process_payment_attempt process_payment_finish validate_merchant
  rw [if_neg hm]
  dsimp only
  rw [hAp]
  dsimp only
  rw [if_pos happroved, hcap]
  dsimp only
  refine ⟨_, rfl, rfl, by simpa using haid, rfl, ?_⟩
  show ((get_transaction (create_audit_log _ _ _ _) transaction_id).map fun t => t.status)
      = some PaymentStatus.captured.value
  have hbase :
      get_transaction
        { db with transactions := db.transactions ++
            [(create_transaction db transaction_id req
                (req.card_data.map (encrypt_card_data ci))
                (req.card_data.map fun cd => takeLast4 cd.card_number) now).1] }
        transaction_id
      = some (create_transaction db transaction_id req
          (req.card_data.map (encrypt_card_data ci))
          (req.card_data.map fun cd => takeLast4 cd.card_number) now).1 := by
    unfold get_transaction
    rw [find_append_fresh db.transactions _ transaction_id hfresh]
    simp [create_transaction]
  unfold create_audit_log
  rw [show ∀ (d : DB) (x : Option String) (e c : String),
        get_transaction { d with audit_logs := d.audit_logs ++ [⟨x, e, c⟩] } transaction_id
          = get_transaction d transaction_id from fun _ _ _ _ => rfl]
  rw [get_transaction_update_status, get_transaction_update_capture,
    get_transaction_update_authorization]
  rw [show get_transaction
        (create_transaction db transaction_id req
          (req.card_data.map (encrypt_card_data ci))
          (req.card_data.map fun cd => takeLast4 cd.card_number) now).2 transaction_id
      = some (create_transaction db transaction_id req
          (req.card_data.map (encrypt_card_data ci))
          (req.card_data.map fun cd => takeLast4 cd.card_number) now).1 from hbase]
  rfl

/-- Witness for C1 at a concrete approving gateway. -/
theorem c1_approved_capture_persists_witness :
    ∃ resp, (process_payment trivialCipher approvedGateway reqFixture "txn_1" "corr" 0
        emptyDB).result = .ok resp ∧
      resp.status = .captured ∧
      resp.authorization_id = some "auth_1" ∧
      resp.capture_id = some "cap_1" ∧
      ((get_transaction (process_payment trivialCipher approvedGateway reqFixture "txn_1"
          "corr" 0 emptyDB).db "txn_1").map (fun t => t.status)) = some resp.status.value :=
  c1_approved_capture_persists trivialCipher approvedGateway reqFixture "txn_1" "corr" 0
    emptyDB ⟨some "approved", some "auth_1", none, none⟩ "auth_1" "cap_1"
    (by decide) (by decide) rfl rfl rfl rfl

/-! ### Claims C6 and C3 -/

/-- A keyed transaction `UPDATE` touching an id no row has is a no-op. -/
theorem map_txn_fresh (l : List TxnRecord) (tid : String)
    (f : TxnRecord → TxnRecord) (h : ∀ r ∈ l, ¬ r.transaction_id = tid) :
    (l.map fun r => if r.transaction_id = tid then f r else r) = l := by
  induction l with
  | nil => rfl
  | cons a l ih =>
    have ha := h a (by simp)
    simp only [List.map_cons, if_neg ha, List.cons.injEq, true_and]
    exact ih (fun r hr => h r (by simp [hr]))

/-- Claim C6 (amended): an input-shape failure is rejected by pydantic
before the orchestrator runs, touching nothing; a merchant-validation
failure inside `process_payment` raises `ValueError("Invalid merchant ID")`
and flows through the compensating handler, which issues exactly one
status-`UPDATE` statement — a statement that matches no row (the transaction
row was never created), so the persisted state is unchanged. -/
theorem c6_validation_failures (ci : Cipher) (g : Gateway) (req : PaymentRequest)
    (transaction_id correlation_id : String) (now : Nat) (db : DB) :
    (∀ e, validate_payment_request req = .error e →
      handle_payment ci g req transaction_id correlation_id now db
        = ⟨.error e, db, Trace.empty⟩) ∧
    (∀ req2, validate_payment_request req = .ok req2 → req2.merchant_id.length < 3 →
      (handle_payment ci g req transaction_id correlation_id now db).result
          = .error (.valueError "Invalid merchant ID") ∧
      (handle_payment ci g req transaction_id correlation_id now db).trace.dbStatements
          = ["update transactions status"] ∧
      ((∀ t ∈ db.transactions, ¬ t.transaction_id = transaction_id) →
        (handle_payment ci g req transaction_id correlation_id now db).db = db)) := by
  constructor
  · intro e he
    unfold handle_payment
    rw [he]
  · intro req2 hok hlt
    unfold handle_payment
    rw [hok]
    unfold process_payment process_payment_attempt validate_merchant
    dsimp only
    rw [if_pos hlt]
    dsimp only
    refine ⟨rfl, rfl, ?_⟩
    intro hfresh
    show update_transaction_status db transaction_id PaymentStatus.failed now = db
    unfold update_transaction_status
    rw [map_txn_fresh db.transactions transaction_id _ hfresh]

/-- A request whose amount is the invalid `-10.00`. -/
def reqNegAmount : PaymentRequest := { reqFixture with amount := ⟨-1000, 2⟩ }

/-- A request whose merchant id `"ab"` is shorter than 3 characters (it
passes the pydantic shape check, whose minimum length is 1). -/
def reqBadMerchant : PaymentRequest := { reqFixture with merchant_id := "ab" }

/-- Witness for the amended C6: the `-10.00` request dies in pydantic with
nothing touched; the `"ab"`-merchant request raises
`ValueError("Invalid merchant ID")` and leaves the store unchanged. -/
theorem c6_validation_failures_witness :
    (handle_payment trivialCipher approvedGateway reqNegAmount "txn_1" "corr" 0 emptyDB
        = ⟨.error (.pydanticValidation "amount must be greater than 0"), emptyDB, Trace.empty⟩) ∧
    ((handle_payment trivialCipher approvedGateway reqBadMerchant "txn_1" "corr" 0
        emptyDB).result = .error (.valueError "Invalid merchant ID")) ∧
    ((handle_payment trivialCipher approvedGateway reqBadMerchant "txn_1" "corr" 0
        emptyDB).db = emptyDB) := by
  have h1 := (c6_validation_failures trivialCipher approvedGateway reqNegAmount "txn_1"
    "corr" 0 emptyDB).1 (.pydanticValidation "amount must be greater than 0") rfl
  have h2 := (c6_validation_failures trivialCipher approvedGateway reqBadMerchant "txn_1"
    "corr" 0 emptyDB).2 _ rfl (by decide)
  exact ⟨h1, h2.1, h2.2.2 (by simp [emptyDB])⟩

/-- Counterexample to C6 as stated: for the merchant id `"ab"` the raised
exception is a plain `ValueError` (not the declared `ValidationError`
class), and the compensating error handler does issue a persistence
statement — the workflow is not persistence-free, even though the statement
matches no row. -/
theorem c6_counterexample :
    ((handle_payment trivialCipher approvedGateway reqBadMerchant "txn_1" "corr" 0
        emptyDB).result = .error (.valueError "Invalid merchant ID")) ∧
    (PError.valueError "Invalid merchant ID" ≠ PError.validationError "Invalid merchant ID") ∧
    ((handle_payment trivialCipher approvedGateway reqBadMerchant "txn_1" "corr" 0
        emptyDB).trace.dbStatements ≠ []) := by
  refine ⟨rfl, by decide, by decide⟩

/-- Claim C3 (amended): every exception raised inside the `try` block is
caught exactly once at the orchestrator boundary, which force-updates the
transaction's status to `failed` as a compensating write, increments the
`payment.failed` counter, and re-raises the caught exception unchanged —
the original exception, not a `PaymentProcessingError` wrapper.  Nothing is
swallowed: the caller always sees the error. -/
theorem c3_error_handler_compensates_and_reraises (ci : Cipher) (g : Gateway)
    (req : PaymentRequest) (transaction_id correlation_id : String) (now : Nat) (db : DB)
    (e : PError) (db1 : DB) (t1 : Trace)
    (h : process_payment_attempt ci g req transaction_id correlation_id now db
      = (.error e, db1, t1)) :
    ((process_payment ci g req transaction_id correlation_id now db).result = .error e) ∧
    ((process_payment ci g req transaction_id correlation_id now db).trace.counters
      = t1.counters ++ ["payment.failed"]) ∧
    ((process_payment ci g req transaction_id correlation_id now db).db
      = update_transaction_status db1 transaction_id PaymentStatus.failed now) ∧
    (((get_transaction (process_payment ci g req transaction_id correlation_id now db).db
        transaction_id).map (fun t => t.status))
      = (get_transaction db1 transaction_id).map (fun _ => PaymentStatus.failed.value)) := by
  unfold process_payment
  rw [h]
  refine ⟨rfl, rfl, rfl, ?_⟩
  show ((get_transaction (update_transaction_status db1 transaction_id PaymentStatus.failed now)
      transaction_id).map fun t => t.status) = _
  rw [get_transaction_update_status]
  cases get_transaction db1 transaction_id <;> rfl

/-- Witness for the amended C3: with the gateway down, the caller receives
the nested `RetryError` unchanged, and the failure counter is incremented. -/
theorem c3_error_handler_witness :
    ((process_payment trivialCipher downGateway reqFixture "txn_1" "corr" 0 emptyDB).result
      = .error (.retryError (.retryError (.exceptionError "Banking service timeout")))) ∧
    ((process_payment trivialCipher downGateway reqFixture "txn_1" "corr" 0
        emptyDB).trace.counters = ["payment.failed"]) := by
  have h := c3_error_handler_compensates_and_reraises trivialCipher downGateway reqFixture
    "txn_1" "corr" 0 emptyDB _ _ _ rfl
  exact ⟨h.1, h.2.1⟩

/-- Counterexample to C3 as stated: a caught merchant-validation failure is
re-raised as the original `ValueError`, not as a `PaymentProcessingError`
carrying the transaction id. -/
theorem c3_counterexample :
    ((process_payment trivialCipher approvedGateway reqBadMerchant "txn_1" "corr" 0
        emptyDB).result = .error (.valueError "Invalid merchant ID")) ∧
    (PError.valueError "Invalid merchant ID").isPaymentProcessing = false :=
  ⟨rfl, rfl⟩

/-! ### Claim C5: the authorize retry budget -/

/-- Behaviour of the inner (banking-service) retry loop: it consumes
between 1 and `fuel` HTTP attempts; every consumed attempt before the last
raised a transport error; a returned result is exactly the last consumed
attempt's response; a raised error means every consumed attempt raised. -/
theorem bankingAuthorize_spec (g : Nat → AuthAttempt) :
    ∀ (fuel i : Nat) (res : Except PError AuthResult) (k : Nat),
      1 ≤ fuel → bankingAuthorize g i fuel = (res, k) →
      1 ≤ k ∧ k ≤ fuel ∧
      (∀ j, j + 1 < k → ∃ e2, g (i + j) = .transport e2) ∧
      (∀ r, res = .ok r → g (i + (k - 1)) = .response r) ∧
      (∀ e, res = .error e → ∀ j, j < k → ∃ e2, g (i + j) = .transport e2) := by
  intro fuel
  induction fuel with
  | zero => intro i res k h heq; omega
  | succ f ih =>
    intro i res k _ heq
    unfold bankingAuthorize at heq
    cases hg : g i with
    | response r =>
      rw [hg] at heq
      dsimp only at heq
      simp only [Prod.mk.injEq] at heq
      obtain ⟨rfl, rfl⟩ := heq
      refine ⟨by omega, by omega, fun j hj => by omega, ?_, ?_⟩
      · intro r' hr
        injection hr with h2
        subst h2
        simpa using hg
      · intro e he
        simp at he
    | transport e =>
      rw [hg] at heq
      dsimp only at heq
      by_cases hf : f = 0
      · subst hf
        simp only [if_pos rfl, Prod.mk.injEq] at heq
        obtain ⟨rfl, rfl⟩ := heq
        refine ⟨by omega, by omega, fun j hj => by omega, ?_, ?_⟩
        · intro r hr
          simp at hr
        · intro e' he' j hj
          have hj0 : j = 0 := by omega
          subst hj0
          exact ⟨e, by simpa using hg⟩
      · rw [if_neg hf] at heq
        rcases hIn : bankingAuthorize g (i + 1) f with ⟨res0, k0⟩
        rw [hIn] at heq
        dsimp only at heq
        simp only [Prod.mk.injEq] at heq
        obtain ⟨rfl, rfl⟩ := heq
        obtain ⟨h2, h3, hpre, h4, h5⟩ := ih (i + 1) res0 k0 (by omega) hIn
        refine ⟨by omega, by omega, ?_, ?_, ?_⟩
        · intro j hj
          cases j with
          | zero => exact ⟨e, by simpa using hg⟩
          | succ j2 =>
            have hp := hpre j2 (by omega)
            have hidx : i + (j2 + 1) = i + 1 + j2 := by omega
            rw [hidx]
            exact hp
        · intro r hr
          have hp := h4 r hr
          have hidx : i + (k0 + 1 - 1) = i + 1 + (k0 - 1) := by omega
          rw [hidx]
          exact hp
        · intro e' he' j hj
          cases j with
          | zero => exact ⟨e, by simpa using hg⟩
          | succ j2 =>
            have hp := h5 e' he' j2 (by omega)
            have hidx : i + (j2 + 1) = i + 1 + j2 := by omega
            rw [hidx]
            exact hp

/-- Behaviour of the stacked retry loops of `PaymentService._authorize_payment`
over `BankingService.authorize_payment`: up to `3 * fuel` HTTP attempts in
total; only transport failures are retried (every attempt before the last
raised a transport error); any returned response — approved or declined —
ends the retrying at once and is the last consumed attempt. -/
theorem authorize_payment_spec (g : Nat → AuthAttempt) :
    ∀ (fuel i : Nat) (res : Except PError AuthResult) (k : Nat),
      1 ≤ fuel → authorize_payment g i fuel = (res, k) →
      1 ≤ k ∧ k ≤ 3 * fuel ∧
      (∀ j, j + 1 < k → ∃ e2, g (i + j) = .transport e2) ∧
      (∀ r, res = .ok r → g (i + (k - 1)) = .response r) ∧
      (∀ e, res = .error e → ∀ j, j < k → ∃ e2, g (i + j) = .transport e2) := by
  intro fuel
  induction fuel with
  | zero => intro i res k h heq; omega
  | succ f ih =>
    intro i res k _ heq
    unfold authorize_payment at heq
    rcases hIn : bankingAuthorize g i 3 with ⟨res0, k0⟩
    rw [hIn] at heq
    dsimp only at heq
    obtain ⟨h2, h3, hpre, h4, h5⟩ := bankingAuthorize_spec g 3 i res0 k0 (by omega) hIn
    cases res0 with
    | ok r =>
      dsimp only at heq
      simp only [Prod.mk.injEq] at heq
      obtain ⟨rfl, rfl⟩ := heq
      refine ⟨by omega, by omega, hpre, ?_, ?_⟩
      · intro r' hr
        injection hr with hr2
        subst hr2
        exact h4 r rfl
      · intro e he
        simp at he
    | error e0 =>
      dsimp only at heq
      by_cases hf : f = 0
      · subst hf
        simp only [if_pos rfl, Prod.mk.injEq] at heq
        obtain ⟨rfl, rfl⟩ := heq
        refine ⟨by omega, by omega, fun j hj => h5 e0 rfl j (by omega), ?_, ?_⟩
        · intro r hr
          simp at hr
        · intro e' he' j hj
          exact h5 e0 rfl j hj
      · rw [if_neg hf] at heq
        rcases hOut : authorize_payment g (i + k0) f with ⟨res2, k2⟩
        rw [hOut] at heq
        dsimp only at heq
        simp only [Prod.mk.injEq] at heq
        obtain ⟨rfl, rfl⟩ := heq
        obtain ⟨g2, g3, gpre, g4, g5⟩ := ih (i + k0) res2 k2 (by omega) hOut
        refine ⟨by omega, by omega, ?_, ?_, ?_⟩
        · intro j hj
          by_cases hjk : j < k0
          · exact h5 e0 rfl j hjk
          · have hp := gpre (j - k0) (by omega)
            have hidx : i + k0 + (j - k0) = i + j := by omega
            rw [hidx] at hp
            exact hp
        · intro r hr
          have hp := g4 r hr
          have hidx : i + k0 + (k2 - 1) = i + (k0 + k2 - 1) := by omega
          rw [hidx] at hp
          exact hp
        · intro e' he' j hj
          by_cases hjk : j < k0
          · exact h5 e0 rfl j hjk
          · have hp := g5 e' he' (j - k0) (by omega)
            have hidx : i + k0 + (j - k0) = i + j := by omega
            rw [hidx] at hp
            exact hp

/-- The `try` block either never reaches the authorize step (0 attempts) or
performs exactly the attempts of the stacked retry loops. -/
theorem attempt_authAttempts (ci : Cipher) (g : Gateway) (req : PaymentRequest)
    (transaction_id correlation_id : String) (now : Nat) (db : DB) :
    (process_payment_attempt ci g req transaction_id correlation_id now db).2.2.authAttempts
        = 0 ∨
    (process_payment_attempt ci g req transaction_id correlation_id now db).2.2.authAttempts
      = (authorize_payment g.auth 0 3).2 := by
  unfold process_payment_attempt process_payment_finish validate_merchant
  repeat' first
    | exact Or.inl rfl
    | exact Or.inr rfl
    | split
    | dsimp only
    | simp_all

/-- The `except` handler does not change the attempt count. -/
theorem process_payment_authAttempts (ci : Cipher) (g : Gateway) (req : PaymentRequest)
    (transaction_id correlation_id : String) (now : Nat) (db : DB) :
    (process_payment ci g req transaction_id correlation_id now db).trace.authAttempts = 0 ∨
    (process_payment ci g req transaction_id correlation_id now db).trace.authAttempts
      = (authorize_payment g.auth 0 3).2 := by
  have h2 : (process_payment ci g req transaction_id correlation_id now db).trace.authAttempts
      = (process_payment_attempt ci g req transaction_id correlation_id now
          db).2.2.authAttempts := by
    unfold process_payment
    rcases h : process_payment_attempt ci g req transaction_id correlation_id now db with
      ⟨res, db1, t1⟩
    cases res <;> rfl
  rw [h2]
  exact attempt_authAttempts ci g req transaction_id correlation_id now db

/-- Claim C5 (amended): the underlying gateway authorize HTTP call is
attempted at most 9 times per payment — two stacked bounded-retry policies
of 3 attempts each (`PaymentService._authorize_payment` around
`BankingService.authorize_payment`), not the single 3-attempt budget the
claim states; every retried attempt had raised a transport error, and any
gateway response — including a decline, which is returned as a terminal
value — stops the retrying immediately. -/
theorem c5_nested_retry_budget (ci : Cipher) (g : Gateway) (req : PaymentRequest)
    (transaction_id correlation_id : String) (now : Nat) (db : DB) :
    ((process_payment ci g req transaction_id correlation_id now db).trace.authAttempts ≤ 9) ∧
    (∀ j, j + 1 < (authorize_payment g.auth 0 3).2 → ∃ e, g.auth j = .transport e) ∧
    (∀ r, (authorize_payment g.auth 0 3).1 = .ok r →
      g.auth ((authorize_payment g.auth 0 3).2 - 1) = .response r) := by
  obtain ⟨h1, h2, hpre, h4, _⟩ := authorize_payment_spec g.auth 3 0
    (authorize_payment g.auth 0 3).1 (authorize_payment g.auth 0 3).2 (by omega) rfl
  refine ⟨?_, ?_, ?_⟩
  · rcases process_payment_authAttempts ci g req transaction_id correlation_id now db with
      h | h
    · omega
    · rw [h]
      omega
  · intro j hj
    simpa using hpre j hj
  · intro r hr
    simpa using h4 r hr

/-- Counterexample to C5 as stated: with the gateway transport persistently
failing, one payment attempts the authorize HTTP call 9 times — more than
the claimed bound of 3. -/
theorem c5_counterexample :
    ((process_payment trivialCipher downGateway reqFixture "txn_1" "corr" 0
        emptyDB).trace.authAttempts = 9) ∧
    ¬ ((process_payment trivialCipher downGateway reqFixture "txn_1" "corr" 0
        emptyDB).trace.authAttempts ≤ 3) := by
  decide

/-- Witness for the amended C5: a declining gateway is consulted exactly
once — the decline is the last (and only) attempt, never retried. -/
theorem c5_nested_retry_budget_witness :
    ((process_payment trivialCipher declinedGateway reqFixture "txn_1" "corr" 0
        emptyDB).trace.authAttempts ≤ 9) ∧
    declinedGateway.auth ((authorize_payment declinedGateway.auth 0 3).2 - 1)
      = .response ⟨some "declined", none, some "Payment declined", some "51"⟩ := by
  have h := c5_nested_retry_budget trivialCipher declinedGateway reqFixture "txn_1" "corr" 0
    emptyDB
  exact ⟨h.1, h.2.2 ⟨some "declined", none, some "Payment declined", some "51"⟩ rfl⟩

/-! ### Claim C9: the card-data encrypt/decrypt round trip -/

/-- The hex alphabet inverts its own digits. -/
theorem hexVal_hexDigitChar : ∀ d, d < 16 → hexVal (hexDigitChar d) = some d := by decide

/-- `parseLit` accepts exactly the literal it expects. -/
theorem parseLit_self : ∀ (l r : List Char), parseLit l (l ++ r) = some r := by
  intro l
  induction l with
  | nil => intro r; rfl
  | cons c cs ih => intro r; simp [parseLit, ih]

/-- Valid Unicode scalar values, as carried by `Char`. -/
theorem char_valid_nat (c : Char) :
    c.toNat < 55296 ∨ (57343 < c.toNat ∧ c.toNat < 1114112) := by
  have h := c.valid
  unfold UInt32.isValidChar Nat.isValidChar at h
  exact h

/-- `hex4` inverts `toHex4` below `0x10000`. -/
theorem hex4_toHex4 (n : Nat) (rest : List Char) (hn : n < 65536) :
    hex4 (toHex4 n ++ rest) = some (n, rest) := by
  unfold toHex4
  simp only [List.cons_append, List.nil_append]
  unfold hex4
  dsimp only
  rw [hexVal_hexDigitChar (n / 4096 % 16) (by omega), hexVal_hexDigitChar (n / 256 % 16)
    (by omega), hexVal_hexDigitChar (n / 16 % 16) (by omega), hexVal_hexDigitChar (n % 16)
    (by omega)]
  have hval : ((n / 4096 % 16 * 16 + n / 256 % 16) * 16 + n / 16 % 16) * 16 + n % 16 = n := by
    omega
  show some (((n / 4096 % 16 * 16 + n / 256 % 16) * 16 + n / 16 % 16) * 16 + n % 16, rest)
    = some (n, rest)
  rw [hval]

/-- One escaped character scans back to itself: the scanner undoes
`escapeChar` and continues with one unit of fuel spent. -/
theorem psbF_escapeChar (c : Char) (f : Nat) (rest : List Char) :
    psbF (f + 1) (escapeChar c ++ rest) = (psbF f rest).map fun p => (c :: p.1, p.2) := by
  unfold escapeChar
  split_ifs with h1 h2 h3 h4 h5 h6 h7 h8 h9
  · subst h1
    simp [psbF, unescapeShort]
  · subst h2
    simp [psbF, unescapeShort]
  · subst h3
    simp [psbF, unescapeShort]
  · subst h4
    simp [psbF, unescapeShort]
  · subst h5
    simp [psbF, unescapeShort]
  · subst h6
    simp [psbF, unescapeShort]
  · subst h7
    simp [psbF, unescapeShort]
  · -- printable ASCII other than the quote and the backslash
    simp only [List.cons_append, List.nil_append]
    conv_lhs => rw [psbF.eq_def]
    dsimp only
    rw [if_neg h1, if_neg h2]
  · -- other characters below 0x10000: a `\uXXXX` escape
    simp only [List.cons_append, List.nil_append]
    conv_lhs => rw [psbF.eq_def]
    dsimp only
    rw [if_neg (show ¬ ('\\' : Char) = '"' by decide),
      if_pos (rfl : ('\\' : Char) = '\\')]
    try dsimp only
    rw [if_pos (rfl : ('u' : Char) = 'u')]
    rw [hex4_toHex4 c.toNat rest h9]
    try dsimp only
    have hv := char_valid_nat c
    rw [if_neg (show ¬ (55296 ≤ c.toNat ∧ c.toNat < 56320) by omega),
      if_neg (show ¬ (56320 ≤ c.toNat ∧ c.toNat < 57344) by omega)]
    rw [Char.ofNat_toNat]
  · -- astral characters: a surrogate pair
    have hv := char_valid_nat c
    have hge : 65536 ≤ c.toNat := by omega
    have hlt : c.toNat < 1114112 := by omega
    simp only [List.cons_append, List.nil_append, List.append_assoc]
    conv_lhs => rw [psbF.eq_def]
    dsimp only
    rw [if_neg (show ¬ ('\\' : Char) = '"' by decide),
      if_pos (rfl : ('\\' : Char) = '\\')]
    try dsimp only
    rw [if_pos (rfl : ('u' : Char) = 'u')]
    rw [hex4_toHex4 (55296 + (c.toNat - 65536) / 1024) _ (by omega)]
    try dsimp only
    rw [if_pos (show 55296 ≤ 55296 + (c.toNat - 65536) / 1024 ∧
      55296 + (c.toNat - 65536) / 1024 < 56320 by omega)]
    try dsimp only
    rw [if_pos (show ('\\' : Char) = '\\' ∧ ('u' : Char) = 'u' by exact ⟨rfl, rfl⟩)]
    rw [hex4_toHex4 (56320 + (c.toNat - 65536) % 1024) rest (by omega)]
    try dsimp only
    rw [if_pos (show 56320 ≤ 56320 + (c.toNat - 65536) % 1024 ∧
      56320 + (c.toNat - 65536) % 1024 < 57344 by omega)]
    have harith : 65536 + (55296 + (c.toNat - 65536) / 1024 - 55296) * 1024 +
        (56320 + (c.toNat - 65536) % 1024 - 56320) = c.toNat := by omega
    rw [harith, Char.ofNat_toNat]

/-- The scanner undoes `escapeStr` up to the closing quote, for any
sufficient fuel. -/
theorem psbF_escape : ∀ (s : List Char) (fuel : Nat) (rest : List Char),
    s.length < fuel → psbF fuel (escapeStr s ++ '"' :: rest) = some (s, rest) := by
  intro s
  induction s with
  | nil =>
    intro fuel rest h
    cases fuel with
    | zero => omega
    | succ f =>
      show psbF (f + 1) ('"' :: rest) = some ([], rest)
      conv_lhs => rw [psbF.eq_def]
      dsimp only
      rw [if_pos rfl]
  | cons c s ih =>
    intro fuel rest h
    cases fuel with
    | zero => omega
    | succ f =>
      show psbF (f + 1) (escapeStr (c :: s) ++ '"' :: rest) = some (c :: s, rest)
      have hflat : escapeStr (c :: s) = escapeChar c ++ escapeStr s := by
        simp [escapeStr]
      rw [hflat, List.append_assoc, psbF_escapeChar, ih f rest (by simpa using h)]
      rfl

/-- Escaping does not shorten a string. -/
theorem escapeStr_length (s : List Char) : s.length ≤ (escapeStr s).length := by
  induction s with
  | nil => simp [escapeStr]
  | cons c s ih =>
    have h1 : 1 ≤ (escapeChar c).length := by
      unfold escapeChar
      repeat' split
      all_goals first
        | decide
        | simp [toHex4]
    simp only [escapeStr, List.flatMap_cons, List.length_append, List.length_cons]
    simp only [escapeStr] at ih
    omega

/-- `parseString` undoes `quoteStr`. -/
theorem parseString_quote (s : String) (rest : List Char) :
    parseString (quoteStr s ++ rest) = some (s.data, rest) := by
  have hshape : quoteStr s ++ rest = '"' :: (escapeStr s.data ++ '"' :: rest) := by
    simp [quoteStr]
  rw [hshape]
  show (if ('"' : Char) = '"' then parseStringBody (escapeStr s.data ++ '"' :: rest)
    else none) = some (s.data, rest)
  rw [if_pos rfl]
  unfold parseStringBody
  apply psbF_escape
  have h := escapeStr_length s.data
  simp only [List.length_append, List.length_cons]
  omega

/-- Decimal digit characters scan back to their values. -/
theorem digitChar_spec : ∀ d, d < 10 →
    (digitChar d).isDigit = true ∧ (digitChar d).toNat - 48 = d := by decide

/-- Every character `natCharsAux` emits is a digit. -/
theorem natCharsAux_all_digits : ∀ (fuel n : Nat), ∀ c ∈ natCharsAux fuel n,
    c.isDigit = true := by
  intro fuel
  induction fuel with
  | zero => intro n c hc; simp [natCharsAux] at hc
  | succ f ih =>
    intro n c hc
    unfold natCharsAux at hc
    by_cases h : n < 10
    · rw [if_pos h] at hc
      simp at hc
      subst hc
      exact (digitChar_spec n h).1
    · rw [if_neg h] at hc
      simp only [List.mem_append, List.mem_singleton] at hc
      rcases hc with hc | hc
      · exact ih (n / 10) c hc
      · subst hc
        exact (digitChar_spec (n % 10) (by omega)).1

/-- `natCharsAux` never emits the empty list when fueled. -/
theorem natCharsAux_ne_nil : ∀ (fuel n : Nat), 0 < fuel → natCharsAux fuel n ≠ [] := by
  intro fuel n h
  cases fuel with
  | zero => omega
  | succ f =>
    unfold natCharsAux
    by_cases h2 : n < 10
    · rw [if_pos h2]; simp
    · rw [if_neg h2]; simp

/-- The greedy digit scan absorbs the digits of `natCharsAux` into the
accumulator. -/
theorem parseNatAux_natCharsAux : ∀ (fuel n acc : Nat) (rest : List Char), n < fuel →
    parseNatAux acc (natCharsAux fuel n ++ rest)
      = parseNatAux (acc * 10 ^ (natCharsAux fuel n).length + n) rest := by
  intro fuel
  induction fuel with
  | zero => intro n acc rest h; omega
  | succ f ih =>
    intro n acc rest h
    by_cases h2 : n < 10
    · unfold natCharsAux
      rw [if_pos h2]
      simp only [List.cons_append, List.nil_append, List.length_cons, List.length_nil]
      conv_lhs => rw [parseNatAux.eq_def]
      dsimp only
      rw [(digitChar_spec n h2).1]
      rw [if_pos rfl]
      rw [(digitChar_spec n h2).2]
      norm_num
    · unfold natCharsAux
      rw [if_neg h2]
      rw [List.append_assoc, List.cons_append, List.nil_append]
      rw [ih (n / 10) acc (digitChar (n % 10) :: rest) (by omega)]
      conv_lhs => rw [parseNatAux.eq_def]
      dsimp only
      rw [(digitChar_spec (n % 10) (by omega)).1]
      rw [if_pos rfl]
      rw [(digitChar_spec (n % 10) (by omega)).2]
      simp only [List.length_append, List.length_cons, List.length_nil]
      congr 1
      have hmn : n / 10 * 10 + n % 10 = n := by omega
      calc (acc * 10 ^ (natCharsAux f (n / 10)).length + n / 10) * 10 + n % 10
          = acc * (10 ^ (natCharsAux f (n / 10)).length * 10) + (n / 10 * 10 + n % 10) := by
            ring
        _ = acc * 10 ^ ((natCharsAux f (n / 10)).length + 1) + n := by rw [hmn, pow_succ]

/-- The greedy digit scan stops at a non-digit (or the end). -/
theorem parseNatAux_stop (acc : Nat) (rest : List Char)
    (h : rest = [] ∨ ∃ d ds, rest = d :: ds ∧ d.isDigit = false) :
    parseNatAux acc rest = (acc, rest) := by
  rcases h with rfl | ⟨d, ds, rfl, hd⟩
  · rfl
  · conv_lhs => rw [parseNatAux.eq_def]
    dsimp only
    rw [hd]
    simp

/-- A digit is not the minus sign. -/
theorem isDigit_ne_dash (c : Char) (h : c.isDigit = true) : ¬ c = '-' := by
  intro hc
  rw [hc] at h
  exact absurd h (by decide)

/-- `natChars` output is a digit followed by digits. -/
theorem natChars_shape (n : Nat) : ∃ d ds, natChars n = d :: ds ∧ d.isDigit = true := by
  cases hh : natChars n with
  | nil => exact absurd hh (natCharsAux_ne_nil (n + 1) n (by omega))
  | cons d ds =>
    refine ⟨d, ds, rfl, ?_⟩
    have hmem : d ∈ natCharsAux (n + 1) n := by
      have h2 : natCharsAux (n + 1) n = d :: ds := hh
      rw [h2]
      simp
    exact natCharsAux_all_digits (n + 1) n d hmem

/-- `parseInt` undoes Python's integer `repr` when the remainder does not
begin with a digit. -/
theorem parseInt_intChars (m : Int) (rest : List Char)
    (h : rest = [] ∨ ∃ d ds, rest = d :: ds ∧ d.isDigit = false) :
    parseInt (intChars m ++ rest) = some (m, rest) := by
  obtain ⟨d, ds, hds, hd⟩ := natChars_shape (if m < 0 then m.natAbs else m.toNat)
  by_cases hm : m < 0
  · rw [if_pos hm] at hds
    unfold intChars
    rw [if_pos hm, hds]
    simp only [List.cons_append]
    conv_lhs => rw [parseInt.eq_def]
    dsimp only
    rw [if_pos rfl]
    rw [hd]
    rw [if_pos rfl]
    rw [show (d :: (ds ++ rest)) = (d :: ds) ++ rest from rfl, ← hds]
    unfold natChars
    rw [parseNatAux_natCharsAux (m.natAbs + 1) m.natAbs 0 rest (by omega)]
    rw [parseNatAux_stop _ rest h]
    dsimp only
    congr 2
    omega
  · rw [if_neg hm] at hds
    unfold intChars
    rw [if_neg hm, hds]
    simp only [List.cons_append]
    conv_lhs => rw [parseInt.eq_def]
    dsimp only
    rw [if_neg (isDigit_ne_dash d hd), hd]
    rw [if_pos rfl]
    rw [show (d :: (ds ++ rest)) = (d :: ds) ++ rest from rfl, ← hds]
    unfold natChars
    rw [parseNatAux_natCharsAux (m.toNat + 1) m.toNat 0 rest (by omega)]
    rw [parseNatAux_stop _ rest h]
    dsimp only
    congr 2
    omega

/-- Reading a `"<key>": "<value>"` pair back. -/
theorem parseKeyStr_emit (key v : String) (rest : List Char) :
    parseKeyStr key (quoteStr key ++ (':' :: ' ' :: (quoteStr v ++ rest)))
      = some (v.data, rest) := by
  unfold parseKeyStr
  rw [show quoteStr key ++ (':' :: ' ' :: (quoteStr v ++ rest))
      = (quoteStr key ++ [':', ' ']) ++ (quoteStr v ++ rest) by simp]
  rw [parseLit_self]
  show parseString (quoteStr v ++ rest) = some (v.data, rest)
  exact parseString_quote v rest

/-- Reading a `"<key>": <int>` pair back. -/
theorem parseKeyInt_emit (key : String) (m : Int) (rest : List Char)
    (h : rest = [] ∨ ∃ d ds, rest = d :: ds ∧ d.isDigit = false) :
    parseKeyInt key (quoteStr key ++ (':' :: ' ' :: (intChars m ++ rest)))
      = some (m, rest) := by
  unfold parseKeyInt
  rw [show quoteStr key ++ (':' :: ' ' :: (intChars m ++ rest))
      = (quoteStr key ++ [':', ' ']) ++ (intChars m ++ rest) by simp]
  rw [parseLit_self]
  show parseInt (intChars m ++ rest) = some (m, rest)
  exact parseInt_intChars m rest h

/-- `parseLit` on the two-character separator `", "`. -/
theorem parseLit_comma_space (rest : List Char) :
    parseLit [',', ' '] (',' :: ' ' :: rest) = some rest := by
  simp [parseLit]

/-- `parseLit` on the opening brace. -/
theorem parseLit_lbrace (rest : List Char) :
    parseLit [lbrace] (lbrace :: rest) = some rest := by
  simp [parseLit]

/-- `parseLit` on the closing brace. -/
theorem parseLit_rbrace : parseLit [rbrace] [rbrace] = some [] := by
  simp [parseLit]

/-- `json.loads` undoes `json.dumps` on the card dict, field for field. -/
theorem loadsCard_dumpsCard (c : CardData) : loadsCard ⟨dumpsCard c⟩ = some c := by
  unfold loadsCard dumpsCard
  simp only [List.append_assoc, List.cons_append, List.nil_append]
  rw [parseLit_lbrace]
  simp only [Option.bind_eq_bind, Option.some_bind]
  rw [parseKeyStr_emit]
  simp only [Option.bind_eq_bind, Option.some_bind]
  rw [parseLit_comma_space]
  simp only [Option.bind_eq_bind, Option.some_bind]
  rw [parseKeyInt_emit _ _ _ (by right; exact ⟨',', _, rfl, by decide⟩)]
  simp only [Option.bind_eq_bind, Option.some_bind]
  rw [parseLit_comma_space]
  simp only [Option.bind_eq_bind, Option.some_bind]
  rw [parseKeyInt_emit _ _ _ (by right; exact ⟨',', _, rfl, by decide⟩)]
  simp only [Option.bind_eq_bind, Option.some_bind]
  rw [parseLit_comma_space]
  simp only [Option.bind_eq_bind, Option.some_bind]
  rw [parseKeyStr_emit]
  simp only [Option.bind_eq_bind, Option.some_bind]
  rw [parseLit_comma_space]
  simp only [Option.bind_eq_bind, Option.some_bind]
  rw [show quoteStr c.cardholder_name ++ [rbrace]
      = quoteStr c.cardholder_name ++ ([rbrace] ++ []) by simp]
  rw [parseKeyStr_emit]
  simp only [Option.bind_eq_bind, Option.some_bind]
  rw [parseLit_self [rbrace] []]
  rfl

/-- The base64 alphabet inverts its own digits. -/
theorem b64CharVal_b64Char : ∀ d, d < 64 → b64CharVal (b64Char d) = some d := by decide

/-- No alphabet character is the padding character. -/
theorem b64Char_ne_eq : ∀ d, d < 64 → ¬ b64Char d = '=' := by decide

/-- `base64.b64decode` undoes `base64.b64encode` on byte lists. -/
theorem b64_roundtrip : ∀ (l : List Nat), (∀ x ∈ l, x < 256) →
    b64decode (b64encode l) = some l
  | [], _ => rfl
  | [a], h => by
    have ha : a < 256 := h a (by simp)
    show b64decode [b64Char (a / 4), b64Char (a % 4 * 16), '=', '='] = some [a]
    conv_lhs => rw [b64decode.eq_def]
    dsimp only
    rw [b64CharVal_b64Char (a / 4) (by omega), b64CharVal_b64Char (a % 4 * 16) (by omega)]
    simp only [Option.bind_eq_bind, Option.some_bind]
    simp only [and_self, if_true]
    have h1 : a / 4 * 4 + a % 4 * 16 / 16 = a := by omega
    rw [h1]
  | [a, b], h => by
    have ha : a < 256 := h a (by simp)
    have hb : b < 256 := h b (by simp)
    show b64decode [b64Char (a / 4), b64Char (a % 4 * 16 + b / 16),
      b64Char (b % 16 * 4), '='] = some [a, b]
    conv_lhs => rw [b64decode.eq_def]
    dsimp only
    rw [b64CharVal_b64Char (a / 4) (by omega),
      b64CharVal_b64Char (a % 4 * 16 + b / 16) (by omega)]
    simp only [Option.bind_eq_bind, Option.some_bind]
    rw [if_neg (b64Char_ne_eq (b % 16 * 4) (by omega))]
    rw [b64CharVal_b64Char (b % 16 * 4) (by omega)]
    simp only [Option.bind_eq_bind, Option.some_bind]
    simp only [if_true]
    have h1 : a / 4 * 4 + (a % 4 * 16 + b / 16) / 16 = a := by omega
    have h2 : (a % 4 * 16 + b / 16) % 16 * 16 + b %  16 * 4 / 4 = b := by omega
    rw [h1, h2]
  | a :: b :: c2 :: rest, h => by
    have ha : a < 256 := h a (by simp)
    have hb : b < 256 := h b (by simp)
    have hc : c2 < 256 := h c2 (by simp)
    have ih := b64_roundtrip rest (fun x hx => h x (by simp [hx]))
    show b64decode (b64Char (a / 4) :: b64Char (a % 4 * 16 + b / 16) ::
      b64Char (b % 16 * 4 + c2 / 64) :: b64Char (c2 % 64) :: b64encode rest)
      = some (a :: b :: c2 :: rest)
    conv_lhs => rw [b64decode.eq_def]
    dsimp only
    rw [b64CharVal_b64Char (a / 4) (by omega),
      b64CharVal_b64Char (a % 4 * 16 + b / 16) (by omega)]
    simp only [Option.bind_eq_bind, Option.some_bind]
    rw [if_neg (b64Char_ne_eq (b % 16 * 4 + c2 / 64) (by omega))]
    rw [b64CharVal_b64Char (b % 16 * 4 + c2 / 64) (by omega)]
    simp only [Option.bind_eq_bind, Option.some_bind]
    rw [if_neg (b64Char_ne_eq (c2 % 64) (by omega))]
    rw [b64CharVal_b64Char (c2 % 64) (by omega)]
    simp only [Option.bind_eq_bind, Option.some_bind]
    rw [ih]
    simp only [Option.bind_eq_bind, Option.some_bind]
    have h1 : a / 4 * 4 + (a % 4 * 16 + b / 16) / 16 = a := by omega
    have h2 : (a % 4 * 16 + b / 16) % 16 * 16 + (b % 16 * 4 + c2 / 64) / 4 = b := by omega
    have h3 : (b % 16 * 4 + c2 / 64) % 4 * 64 + c2 % 64 = c2 := by omega
    rw [h1, h2, h3]

/-- Claim C9: decrypting the result of encrypting structurally valid card
data returns the original card data field for field, for any cipher that
inverts itself on the serialized payload (the Fernet contract). -/
theorem c9_encrypt_decrypt_roundtrip (ci : Cipher) (card : CardData)
    (hdec : ∀ s, ci.dec (ci.enc s) = some s)
    (hbytes : ∀ s, ∀ x ∈ ci.enc s, x < 256)
    (_hvalid : card.structValid = true) :
    decrypt_card_data ci (encrypt_card_data ci card) = some card := by
  unfold encrypt_card_data decrypt_card_data
  show (do
    let bytes ← b64decode (String.mk (b64encode (ci.enc ⟨dumpsCard card⟩))).data
    let json ← ci.dec bytes
    loadsCard json) = some card
  rw [show (String.mk (b64encode (ci.enc ⟨dumpsCard card⟩))).data
    = b64encode (ci.enc ⟨dumpsCard card⟩) from rfl]
  rw [b64_roundtrip _ (hbytes _)]
  simp only [Option.bind_eq_bind, Option.some_bind]
  rw [hdec]
  simp only [Option.bind_eq_bind, Option.some_bind]
  exact loadsCard_dumpsCard card

/-- Inverse of the three-byte character codec below. -/
def decode3 : List Nat → Option (List Char)
  | [] => some []
  | a :: b :: c :: rest =>
    let n := a * 65536 + b * 256 + c
    if n.isValidChar then (decode3 rest).map (fun tl => Char.ofNat n :: tl) else none
  | _ => none

/-- A concrete self-inverting cipher (three bytes per character), standing
in for Fernet in the witness. -/
def byteCipher : Cipher := {
  enc := fun s => s.data.flatMap
    (fun ch => [ch.toNat / 65536, ch.toNat / 256 % 256, ch.toNat % 256])
  dec := fun bs => (decode3 bs).map (fun l => String.mk l) }

/-- The three-byte codec round-trips. -/
theorem decode3_enc : ∀ (l : List Char),
    decode3 (l.flatMap (fun ch => [ch.toNat / 65536, ch.toNat / 256 % 256, ch.toNat % 256]))
      = some l := by
  intro l
  induction l with
  | nil => rfl
  | cons ch l ih =>
    simp only [List.flatMap_cons, List.cons_append, List.nil_append]
    conv_lhs => rw [decode3.eq_def]
    dsimp only
    have hn : ch.toNat / 65536 * 65536 + ch.toNat / 256 % 256 * 256 + ch.toNat % 256
        = ch.toNat := by omega
    rw [hn]
    have hv : ch.toNat.isValidChar := by
      have h2 := char_valid_nat ch
      unfold Nat.isValidChar
      omega
    rw [if_pos hv]
    rw [ih]
    show some (Char.ofNat ch.toNat :: l) = some (ch :: l)
    rw [Char.ofNat_toNat]

/-- `byteCipher` satisfies the Fernet round-trip contract. -/
theorem byteCipher_dec (s : String) : byteCipher.dec (byteCipher.enc s) = some s := by
  show (decode3 (s.data.flatMap
    (fun ch => [ch.toNat / 65536, ch.toNat / 256 % 256, ch.toNat % 256]))).map
      (fun l => String.mk l) = some s
  rw [decode3_enc]
  rfl

/-- `byteCipher` emits bytes. -/
theorem byteCipher_bytes (s : String) : ∀ x ∈ byteCipher.enc s, x < 256 := by
  intro x hx
  simp only [byteCipher, List.mem_flatMap] at hx
  obtain ⟨ch, _, hmem⟩ := hx
  have hv := char_valid_nat ch
  simp only [List.mem_cons, List.mem_singleton, List.not_mem_nil, or_false] at hmem
  rcases hmem with rfl | rfl | rfl <;> omega

/-- Witness for C9 at a concrete card and the concrete `byteCipher`. -/
theorem c9_encrypt_decrypt_roundtrip_witness :
    (⟨"4111111111111111", 12, 2030, "123", "Jane Doe"⟩ : CardData).structValid = true ∧
    decrypt_card_data byteCipher
        (encrypt_card_data byteCipher ⟨"4111111111111111", 12, 2030, "123", "Jane Doe"⟩)
      = some ⟨"4111111111111111", 12, 2030, "123", "Jane Doe"⟩ :=
  ⟨by decide, c9_encrypt_decrypt_roundtrip byteCipher _ byteCipher_dec byteCipher_bytes
    (by decide)⟩
